import Mathlib

/-!
Verification of the content-classification and text-quality components of the
crawler repository: the single-level rule-based classifier
(src/classifier/rule_based.py), the AI and hybrid classifiers
(src/classifier/ai_classifier.py), the multi-level classifier
(src/classifier/multi_level_classifier.py) and the article quality assessment
(src/utils/text_cleaner.py), together with the configuration data they read
(src/config/keywords.py, src/config/category_taxonomy.py,
src/config/settings.py).

Python floats are modelled as exact rationals, Python dicts as ordered
association lists (insertion order is iteration order), and raised exceptions
as `Except` values.
-/

set_option maxHeartbeats 1000000
set_option maxRecDepth 40000

/-! ## Python string primitives -/

/-- Python `str.lower`, restricted to the ASCII case mapping.  All keywords in
the configuration are CJK or ASCII, where this agrees with Python. -/
def pyLower (s : String) : String := s.map Char.toLower

/-- Core of Python `str.count`: the number of non-overlapping occurrences of
`sub` in the text, scanning left to right; the `skip` counter carries how many
characters remain to be jumped over after a match, so the recursion is
structural on the text. -/
def countOccGo (sub : List Char) : List Char → ℕ → ℕ
  | [], _ => 0
  | _ :: rest, skip + 1 => countOccGo sub rest skip
  | c :: rest, 0 =>
    if sub.isPrefixOf (c :: rest) then
      1 + countOccGo sub rest (sub.length - 1)
    else
      countOccGo sub rest 0

/-- Python `text.count(sub)` (for nonempty `sub`, the only case the code uses). -/
def pyCount (text sub : String) : ℕ := countOccGo sub.toList text.toList 0

/-- Python `sub in text` substring test (for nonempty `sub`, the only case the
code uses): at least one occurrence. -/
def pyContains (text sub : String) : Bool := decide (0 < pyCount text sub)

/-- Python `max` over a list of rationals; the empty case is only reached
behind the sources' `if scores else 0` guards, for which we return 0. -/
def pyMax : List ℚ → ℚ
  | [] => 0
  | x :: xs => xs.foldl max x

/-- Python `max(d, key=d.get)` over an association list: the first entry
attaining the maximum value (later entries replace the current best only when
strictly larger). -/
def argmaxFirst : List (String × ℚ) → Option (String × ℚ)
  | [] => none
  | p :: rest => some (rest.foldl (fun q r => if r.2 > q.2 then r else q) p)

/-- Round half to even (Python's `round` tie rule) to an integer. -/
def roundHalfEven (q : ℚ) : ℤ :=
  if q - Int.floor q < 1/2 then Int.floor q
  else if q - Int.floor q > 1/2 then Int.floor q + 1
  else if Even (Int.floor q) then Int.floor q else Int.floor q + 1

/-- Python `round(q, 3)` on exact rationals. -/
def round3 (q : ℚ) : ℚ := (roundHalfEven (q * 1000) : ℚ) / 1000

/-! ## Data model of classification results

All the classifiers return Python dicts with a `category`, a `confidence` and
a `method` key, plus method-specific extras (`reasoning` for the AI
classifier, score tables for the rule-based one); we use a single record with
defaults for the extras. -/

/-- A classification result dict. -/
structure ClassResult where
  category : String
  confidence : ℚ
  method : String
  reasoning : String := ""
  allScores : List (String × ℚ) := []
  matchedKeywords : List (String × ℕ) := []
deriving Repr, DecidableEq

/-! ## Configuration data (src/config) -/

/-- One entry of `KEYWORD_RULES`: a display name and weighted keywords. -/
structure CategoryRule where
  name : String
  keywords : List (String × ℚ)
deriving Repr, DecidableEq

/-- `CONFIDENCE_THRESHOLD` from config/settings.py. -/
def CONFIDENCE_THRESHOLD : ℚ := 7/10

/-! ## Single-level rule-based classifier (src/classifier/rule_based.py) -/

/-- The contribution of one weighted keyword to a category score:
`weight * min(count, 5) / 5` when the keyword occurs in the text. -/
def keywordTerm (text : String) (p : String × ℚ) : ℚ :=
  let c := pyCount (pyLower text) (pyLower p.1)
  if 0 < c then p.2 * ((min c 5 : ℕ) : ℚ) / 5 else 0

/-- The per-category raw score of `RuleBasedClassifier.classify`: the keyword
contributions summed. -/
def categoryScore (text : String) (rule : CategoryRule) : ℚ :=
  (rule.keywords.map (keywordTerm text)).sum

/-- The matched-keyword list `RuleBasedClassifier.classify` records for one
category: each keyword occurring in the text, with its occurrence count. -/
def categoryMatches (text : String) (rule : CategoryRule) : List (String × ℕ) :=
  rule.keywords.filterMap (fun p =>
    let c := pyCount (pyLower text) (pyLower p.1)
    if 0 < c then some (p.1, c) else none)

/-- The combined text `f"{title} {title} {content}"` both classifiers build:
the title is counted twice so it weighs more. -/
def combinedText (title content : String) : String :=
  title ++ " " ++ title ++ " " ++ content

/-- The raw score dict of `RuleBasedClassifier.classify`. -/
def rawScores (rules : List (String × CategoryRule)) (text : String) :
    List (String × ℚ) :=
  rules.map (fun p => (p.1, categoryScore text p.2))

/-- `max_score`, the maximum raw score across categories. -/
def maxRawScore (rules : List (String × CategoryRule)) (text : String) : ℚ :=
  pyMax ((rawScores rules text).map Prod.snd)

/-- The normalized score dict of `RuleBasedClassifier.classify`: every score
divided by the maximum when it is positive, otherwise the raw scores. -/
def normScores (rules : List (String × CategoryRule)) (text : String) :
    List (String × ℚ) :=
  if 0 < maxRawScore rules text then
    (rawScores rules text).map (fun p => (p.1, p.2 / maxRawScore rules text))
  else rawScores rules text

/-- `RuleBasedClassifier.classify`.  The title is counted twice in the
combined text; scores are normalized by the maximum when it is positive; an
all-zero maximum returns `other` with confidence 0; otherwise the first
maximal category wins and is demoted to `other` when its normalized score is
below `CONFIDENCE_THRESHOLD`, the confidence being reported rounded to three
decimals either way. -/
def ruleClassify (rules : List (String × CategoryRule)) (title content : String) :
    ClassResult :=
  let text := combinedText title content
  let totalMatches := rules.map (fun p => (p.1, categoryMatches text p.2))
  let maxScore := maxRawScore rules text
  let normalizedScores := normScores rules text
  if maxScore = 0 then
    { category := "other", confidence := 0, method := "rule_based",
      allScores := normalizedScores }
  else
    match argmaxFirst normalizedScores with
    | none =>
      -- unreachable: a nonzero maximum forces a nonempty score list
      { category := "other", confidence := 0, method := "rule_based",
        allScores := normalizedScores }
    | some best =>
      let finalCategory := if best.2 < CONFIDENCE_THRESHOLD then "other" else best.1
      { category := finalCategory, confidence := round3 best.2,
        method := "rule_based", allScores := normalizedScores,
        matchedKeywords :=
          ((totalMatches.find? (fun p => p.1 = finalCategory)).map Prod.snd).getD [] }
/-- The keyword rules of config/keywords.py: each category has a display name and a
list of (keyword, weight) pairs, in source order. -/
def KEYWORD_RULES : List (String × CategoryRule) := [
  ("psychology", ⟨"心理咨询",
     [("心理咨询", 1),
      ("心理治疗", 1),
      ("心理辅导", 1),
      ("心理咨询师", 1),
      ("抑郁症", (19/20 : ℚ)),
      ("焦虑症", (19/20 : ℚ)),
      ("强迫症", (19/20 : ℚ)),
      ("恐惧症", (19/20 : ℚ)),
      ("双相情感障碍", (19/20 : ℚ)),
      ("失眠症", (9/10 : ℚ)),
      ("心理障碍", (9/10 : ℚ)),
      ("认知行为疗法", (17/20 : ℚ)),
      ("精神分析", (17/20 : ℚ)),
      ("心理动力学", (4/5 : ℚ)),
      ("团体治疗", (4/5 : ℚ)),
      ("家庭治疗", (4/5 : ℚ)),
      ("艺术治疗", (3/4 : ℚ)),
      ("心理健康", (7/10 : ℚ)),
      ("情绪管理", (7/10 : ℚ)),
      ("压力缓解", (7/10 : ℚ)),
      ("心理问题", (7/10 : ℚ)),
      ("心理状态", (13/20 : ℚ)),
      ("心理", (1/2 : ℚ)),
      ("抑郁", (3/5 : ℚ)),
      ("焦虑", (3/5 : ℚ)),
      ("情绪", (1/2 : ℚ))]⟩),
  ("management", ⟨"企业管理",
     [("企业管理", 1),
      ("管理学", 1),
      ("CEO", (19/20 : ℚ)),
      ("总经理", (9/10 : ℚ)),
      ("高管", (17/20 : ℚ)),
      ("战略管理", 1),
      ("企业战略", (19/20 : ℚ)),
      ("商业模式", (9/10 : ℚ)),
      ("竞争战略", (17/20 : ℚ)),
      ("战略规划", (17/20 : ℚ)),
      ("领导力", (19/20 : ℚ)),
      ("团队建设", (9/10 : ℚ)),
      ("领导艺术", (17/20 : ℚ)),
      ("执行力", (4/5 : ℚ)),
      ("人力资源管理", (9/10 : ℚ)),
      ("组织管理", (17/20 : ℚ)),
      ("绩效管理", (17/20 : ℚ)),
      ("企业文化", (4/5 : ℚ)),
      ("组织架构", (4/5 : ℚ)),
      ("员工激励", (3/4 : ℚ)),
      ("人才管理", (3/4 : ℚ)),
      ("团队协作", (7/10 : ℚ)),
      ("项目管理", (17/20 : ℚ)),
      ("运营管理", (4/5 : ℚ)),
      ("流程优化", (3/4 : ℚ)),
      ("效率提升", (7/10 : ℚ)),
      ("管理", (1/2 : ℚ)),
      ("团队", (1/2 : ℚ)),
      ("公司", (2/5 : ℚ)),
      ("企业", (2/5 : ℚ))]⟩),
  ("finance", ⟨"财务会计税务",
     [("会计", 1),
      ("注册会计师", 1),
      ("CPA", (19/20 : ℚ)),
      ("会计师", (9/10 : ℚ)),
      ("税务", 1),
      ("税务筹划", (19/20 : ℚ)),
      ("报税", (9/10 : ℚ)),
      ("税收", (17/20 : ℚ)),
      ("增值税", (17/20 : ℚ)),
      ("企业所得税", (17/20 : ℚ)),
      ("个人所得税", (4/5 : ℚ)),
      ("税务申报", (4/5 : ℚ)),
      ("财务管理", (9/10 : ℚ)),
      ("财务分析", (17/20 : ℚ)),
      ("财务报表", (17/20 : ℚ)),
      ("财务总监", (17/20 : ℚ)),
      ("CFO", (17/20 : ℚ)),
      ("预算管理", (4/5 : ℚ)),
      ("财务会计", (9/10 : ℚ)),
      ("管理会计", (17/20 : ℚ)),
      ("成本会计", (4/5 : ℚ)),
      ("审计", (17/20 : ℚ)),
      ("内部审计", (4/5 : ℚ)),
      ("外部审计", (3/4 : ℚ)),
      ("会计准则", (4/5 : ℚ)),
      ("会计制度", (3/4 : ℚ)),
      ("会计核算", (3/4 : ℚ)),
      ("财务制度", (7/10 : ℚ)),
      ("资产负债表", (3/4 : ℚ)),
      ("利润表", (3/4 : ℚ)),
      ("现金流量表", (7/10 : ℚ)),
      ("应收账款", (13/20 : ℚ)),
      ("应付账款", (13/20 : ℚ)),
      ("成本核算", (7/10 : ℚ)),
      ("财务", (1/2 : ℚ)),
      ("账务", (1/2 : ℚ)),
      ("记账", (1/2 : ℚ)),
      ("核算", (1/2 : ℚ))]⟩)
]

/-- The exclusion keyword lists of config/keywords.py, in source order. -/
def EXCLUSION_KEYWORDS : List (String × List String) := [
  ("spam", ["加微信", "联系QQ", "代写", "刷单", "贷款", "彩票", "博彩", "赌博", "投资理财", "内幕消息", "涨停板", "股票推荐", "快速致富", "暴利", "兼职刷单"]),
  ("advertisement", ["立即购买", "限时优惠", "促销", "折扣", "优惠券", "点击购买", "免费试用", "专柜价", "原价", "现价"])
]

/-- A leaf of `CATEGORY_TAXONOMY`: display name and keyword list. -/
structure TaxSubSub where
  name : String
  keywords : List String
deriving Repr, DecidableEq

/-- A level-2 node of `CATEGORY_TAXONOMY`. -/
structure TaxSub where
  name : String
  sub_subcategories : List (String × TaxSubSub)
deriving Repr, DecidableEq

/-- A top-level node of `CATEGORY_TAXONOMY`. -/
structure TaxCategory where
  name : String
  subcategories : List (String × TaxSub)
deriving Repr, DecidableEq

/-- The 3-level taxonomy of config/category_taxonomy.py, in source order. -/
def CATEGORY_TAXONOMY : List (String × TaxCategory) := [
 ("psychology", ⟨"心理咨询",
   [
    ("clinical", ⟨"临床心理",
      [
       ("depression", ⟨"抑郁障碍", ["抑郁症", "抑郁发作", "重度抑郁", "轻度抑郁", "双相抑郁"]⟩),
       ("anxiety", ⟨"焦虑障碍", ["焦虑症", "广泛性焦虑", "惊恐发作", "恐惧症", "强迫症"]⟩),
       ("obsessive_compulsive", ⟨"强迫障碍", ["强迫症", "强迫行为", "强迫思维", "OCD"]⟩),
       ("phobia", ⟨"恐惧症", ["恐惧症", "社交恐惧", "广场恐惧", "特定恐惧"]⟩),
       ("bipolar", ⟨"双相障碍", ["双相情感障碍", "躁郁症", "躁狂发作", "双相"]⟩),
       ("insomnia", ⟨"睡眠障碍", ["失眠症", "睡眠障碍", "嗜睡症", "睡眠呼吸暂停"]⟩),
       ("eating_disorder", ⟨"进食障碍", ["厌食症", "贪食症", "暴食症", "进食障碍"]⟩),
       ("ptsd", ⟨"创伤应激", ["PTSD", "创伤后应激障碍", "急性应激障碍", "创伤"]⟩)]⟩),
    ("therapy", ⟨"咨询技术",
      [
       ("cbt", ⟨"认知行为疗法", ["认知行为疗法", "CBT", "认知重构", "行为激活", "暴露疗法"]⟩),
       ("psychodynamic", ⟨"精神分析", ["精神分析", "心理动力学", "移情", "反移情", "自由联想"]⟩),
       ("person_centered", ⟨"人本主义", ["人本主义", "当事人中心", "罗杰斯", "无条件积极关注"]⟩),
       ("family_therapy", ⟨"家庭治疗", ["家庭治疗", "夫妻治疗", "婚姻治疗", "系统式家庭治疗"]⟩),
       ("art_therapy", ⟨"艺术治疗", ["艺术治疗", "音乐治疗", "绘画治疗", "沙盘治疗", "表达性艺术治疗"]⟩),
       ("group_therapy", ⟨"团体治疗", ["团体治疗", "小组治疗", "团体辅导", "心理剧"]⟩)]⟩),
    ("developmental", ⟨"发展心理",
      [
       ("child", ⟨"儿童心理", ["儿童心理", "儿童发展", "幼儿心理", "儿童行为问题"]⟩),
       ("adolescent", ⟨"青少年心理", ["青少年心理", "青春期", "叛逆期", "青少年问题"]⟩),
       ("adult", ⟨"成年心理", ["成年心理", "中年危机", "成年发展"]⟩),
       ("elderly", ⟨"老年心理", ["老年心理", "老龄化", "老年抑郁", "认知障碍"]⟩)]⟩),
    ("relationship", ⟨"婚恋家庭",
      [
       ("marriage", ⟨"婚姻咨询", ["婚姻咨询", "夫妻关系", "婚姻危机", "婚姻经营"]⟩),
       ("dating", ⟨"恋爱心理", ["恋爱心理", "情感关系", "约会技巧", "亲密关系"]⟩),
       ("family", ⟨"家庭关系", ["家庭关系", "亲子关系", "婆媳关系", "家庭沟通"]⟩),
       ("divorce", ⟨"离婚心理", ["离婚心理", "离异", "离婚调适", "单亲家庭"]⟩)]⟩),
    ("workplace", ⟨"职场心理",
      [
       ("career", ⟨"职业规划", ["职业规划", "职业发展", "职业选择", "转行"]⟩),
       ("work_stress", ⟨"工作压力", ["工作压力", "职业倦怠", "过劳", "压力管理"]⟩),
       ("leadership_psych", ⟨"领导力心理", ["领导力心理", "管理心理", "决策心理", "影响力"]⟩),
       ("workplace_conflict", ⟨"职场人际", ["职场人际", "同事关系", "职场沟通", "职场霸凌"]⟩)]⟩),
    ("emotion", ⟨"情绪管理",
      [
       ("emotion_regulation", ⟨"情绪调节", ["情绪调节", "情绪管理", "情绪控制", "情商"]⟩),
       ("anger", ⟨"愤怒管理", ["愤怒管理", "控制愤怒", "情绪宣泄"]⟩),
       ("stress", ⟨"压力管理", ["压力管理", "减压", "应对压力", "心理压力"]⟩),
       ("resilience", ⟨"心理韧性", ["心理韧性", "抗逆力", "复原力", "心理资本"]⟩)]⟩)]⟩),
 ("management", ⟨"企业管理",
   [
    ("strategy", ⟨"战略管理",
      [
       ("corporate_strategy", ⟨"企业战略", ["企业战略", "公司战略", "战略规划", "战略目标"]⟩),
       ("business_strategy", ⟨"业务战略", ["业务战略", "竞争战略", "差异化战略", "成本领先"]⟩),
       ("blue_ocean", ⟨"蓝海战略", ["蓝海战略", "价值创新", "红海", "市场创新"]⟩),
       ("strategic_analysis", ⟨"战略分析", ["SWOT分析", "PEST分析", "波特五力", "战略分析"]⟩),
       ("strategic_execution", ⟨"战略执行", ["战略执行", "战略落地", "战略实施", "执行"]⟩)]⟩),
    ("hr", ⟨"人力资源",
      [
       ("hr_planning", ⟨"人力资源规划", ["人力资源规划", "人力规划", "人才规划", "HR规划"]⟩),
       ("organization", ⟨"组织架构", ["组织架构", "组织设计", "组织结构", "扁平化", "矩阵式"]⟩),
       ("position_system", ⟨"职位体系", ["职位体系", "岗位体系", "职位描述", "岗位分析", "胜任力模型"]⟩),
       ("compensation_benefits", ⟨"薪酬绩效", ["薪酬管理", "绩效管理", "薪酬体系", "绩效考核", "KPI", "OKR", "股权激励"]⟩),
       ("talent_management", ⟨"人才管理", ["人才管理", "人才发展", "人才盘点", "继任计划", "人才梯队"]⟩),
       ("recruitment", ⟨"招聘选拔", ["招聘", "选拔", "面试", "人才引进", "校园招聘", "猎头"]⟩),
       ("training", ⟨"培训发展", ["培训", "员工发展", "学习发展", "企业大学", "培训体系"]⟩),
       ("employee_relations", ⟨"员工关系", ["员工关系", "劳动关系", "员工满意", "员工敬业度"]⟩)]⟩),
    ("culture", ⟨"企业文化",
      [
       ("culture_building", ⟨"文化建设", ["企业文化建设", "文化落地", "文化塑造", "价值观"]⟩),
       ("culture_transformation", ⟨"文化变革", ["文化变革", "文化转型", "组织变革", "变革管理"]⟩),
       ("employer_brand", ⟨"雇主品牌", ["雇主品牌", "最佳雇主", "雇主形象", "员工体验"]⟩),
       ("org_behavior", ⟨"组织行为", ["组织行为", "行为管理", "员工行为", "组织氛围"]⟩)]⟩),
    ("operations", ⟨"运营管理",
      [
       ("supply_chain", ⟨"供应链管理", ["供应链管理", "供应链", "采购管理", "物流管理", "供应商管理"]⟩),
       ("process_optimization", ⟨"流程优化", ["流程优化", "业务流程", "流程再造", "BPR", "精益管理"]⟩),
       ("quality_control", ⟨"质量管理", ["质量管理", "质量控制", "六西格玛", "QA", "QC"]⟩),
       ("project_management", ⟨"项目管理", ["项目管理", "敏捷开发", "Scrum", "项目控制", "PM"]⟩),
       ("lean_production", ⟨"精益生产", ["精益生产", "精益管理", "5S", "TPS", "丰田生产方式"]⟩)]⟩),
    ("marketing", ⟨"市场营销",
      [
       ("brand_management", ⟨"品牌管理", ["品牌管理", "品牌建设", "品牌策略", "品牌定位"]⟩),
       ("digital_marketing", ⟨"数字营销", ["数字营销", "网络营销", "新媒体营销", "社交媒体营销"]⟩),
       ("market_research", ⟨"市场调研", ["市场调研", "市场研究", "用户调研", "消费者洞察"]⟩),
       ("product_marketing", ⟨"产品营销", ["产品营销", "产品策略", "产品定位", "产品生命周期"]⟩),
       ("customer_strategy", ⟨"客户策略", ["客户关系", "CRM", "客户运营", "用户增长", "私域流量"]⟩),
       ("sales_management", ⟨"销售管理", ["销售管理", "销售技巧", "渠道管理", "销售团队"]⟩)]⟩),
    ("innovation", ⟨"创新管理",
      [
       ("product_innovation", ⟨"产品创新", ["产品创新", "产品研发", "R&D", "研发管理"]⟩),
       ("business_model", ⟨"商业模式", ["商业模式", "商业创新", "盈利模式", "平台模式"]⟩),
       ("digital_transformation", ⟨"数字化转型", ["数字化转型", "数字化", "信息化", "企业数字化"]⟩),
       ("open_innovation", ⟨"开放式创新", ["开放式创新", "协同创新", "生态创新"]⟩)]⟩),
    ("leadership", ⟨"领导力发展",
      [
       ("executive_leadership", ⟨"高管领导力", ["CEO", "高管", "高管团队", "决策层", "董事会"]⟩),
       ("middle_management", ⟨"中层管理", ["中层管理", "部门经理", "团队主管", "管理技能"]⟩),
       ("leadership_dev", ⟨"领导力发展", ["领导力发展", "领导力培养", "领导梯队", "潜能开发"]⟩),
       ("decision_making", ⟨"决策管理", ["决策管理", "决策方法", "科学决策", "数据决策"]⟩)]⟩)]⟩),
 ("finance", ⟨"财务会计税务",
   [
    ("financial_accounting", ⟨"财务会计",
      [
       ("accounting_standards", ⟨"会计准则", ["会计准则", "企业会计准则", "IAS", "IFRS", "GAAP"]⟩),
       ("financial_statements", ⟨"财务报表", ["财务报表", "资产负债表", "利润表", "现金流量表", "所有者权益变动表"]⟩),
       ("accounting_cycle", ⟨"会计核算", ["会计核算", "记账", "凭证", "账簿", "会计分录"]⟩),
       ("accounting_systems", ⟨"会计制度", ["会计制度", "财务制度", "内控制度", "会计政策"]⟩)]⟩),
    ("management_accounting", ⟨"管理会计",
      [
       ("cost_accounting", ⟨"成本会计", ["成本会计", "成本核算", "成本控制", "标准成本", "作业成本"]⟩),
       ("budget_management", ⟨"预算管理", ["预算管理", "全面预算", "预算编制", "预算执行", "预算考核"]⟩),
       ("performance_measurement", ⟨"绩效管理", ["绩效管理", "绩效评价", "KPI", "平衡计分卡", "责任会计"]⟩),
       ("internal_control", ⟨"内部控制", ["内部控制", "风险管理", "COSO", "风险控制", "合规管理"]⟩)]⟩),
    ("tax", ⟨"税务",
      [
       ("vat", ⟨"增值税", ["增值税", "进项税", "销项税", "增值税专用发票", "小规模纳税人"]⟩),
       ("corporate_tax", ⟨"企业所得税", ["企业所得税", "企业税收", "汇算清缴", "应纳税所得额"]⟩),
       ("personal_tax", ⟨"个人所得税", ["个人所得税", "个税", "专项扣除", "工资薪金"]⟩),
       ("tax_planning", ⟨"税务筹划", ["税务筹划", "税收筹划", "节税", "合理避税"]⟩),
       ("tax_compliance", ⟨"税务申报", ["税务申报", "报税", "纳税申报", "电子税务局"]⟩),
       ("other_taxes", ⟨"其他税种", ["印花税", "城建税", "教育费附加", "土地增值税", "房产税", "契税"]⟩)]⟩),
    ("audit", ⟨"审计",
      [
       ("external_audit", ⟨"外部审计", ["外部审计", "年报审计", "审计报告", "审计意见"]⟩),
       ("internal_audit", ⟨"内部审计", ["内部审计", "内审", "审计部门", "审计程序"]⟩),
       ("audit_standards", ⟨"审计准则", ["审计准则", "审计标准", "ISA", "审计规范"]⟩)]⟩),
    ("financial_management", ⟨"财务管理",
      [
       ("financial_analysis", ⟨"财务分析", ["财务分析", "财务比率", "杜邦分析", "财务指标", "盈利能力"]⟩),
       ("investment_decision", ⟨"投资决策", ["投资决策", "资本预算", "NPV", "IRR", "投资回报"]⟩),
       ("financing", ⟨"融资管理", ["融资", "股权融资", "债权融资", "IPO", "私募融资"]⟩),
       ("working_capital", ⟨"营运资金", ["营运资金", "流动资金", "现金流管理", "资金管理"]⟩),
       ("cfo_role", ⟨"财务总监", ["CFO", "财务总监", "首席财务官", "财务高管"]⟩)]⟩),
    ("financial_report", ⟨"财务报告",
      [
       ("report_disclosure", ⟨"信息披露", ["信息披露", "定期报告", "临时公告", "证监会"]⟩),
       ("consolidated_statements", ⟨"合并报表", ["合并报表", "合并财务报表", "母公司", "子公司"]⟩),
       ("segment_reporting", ⟨"分部报告", ["分部报告", "业务分部", "地区分部"]⟩)]⟩)]⟩)
]

/-! ## Multi-level classifier (src/classifier/multi_level_classifier.py) -/

/-- Association-list lookup, modelling Python `d[k]` / `d.get(k)`. -/
def assocFind {α : Type} (l : List (String × α)) (k : String) : Option α :=
  (l.find? (fun p => p.1 = k)).map Prod.snd

/-- Level-1 raw score of one top-level category: `min(count, 3)` summed over
every keyword of every descendant leaf that occurs in the text. -/
def level1Score (text : String) (cat : TaxCategory) : ℚ :=
  (cat.subcategories.map (fun sub =>
    (sub.2.sub_subcategories.map (fun ss =>
      (ss.2.keywords.map (fun kw =>
        let c := pyCount (pyLower text) (pyLower kw)
        if 0 < c then ((min c 3 : ℕ) : ℚ) else 0)).sum)).sum)).sum

/-- Result of `MultiLevelClassifier._classify_level_1`. -/
structure Level1Result where
  category : String
  confidence : ℚ
  allScores : List (String × ℚ)
deriving Repr, DecidableEq

/-- The raw level-1 score dict of `MultiLevelClassifier._classify_level_1`. -/
def level1RawScores (taxonomy : List (String × TaxCategory)) (text : String) :
    List (String × ℚ) :=
  taxonomy.map (fun p => (p.1, level1Score text p.2))

/-- The level-1 `max_score`. -/
def level1MaxScore (taxonomy : List (String × TaxCategory)) (text : String) : ℚ :=
  pyMax ((level1RawScores taxonomy text).map Prod.snd)

/-- The level-1 scores after normalization by a positive maximum. -/
def level1NormScores (taxonomy : List (String × TaxCategory)) (text : String) :
    List (String × ℚ) :=
  if 0 < level1MaxScore taxonomy text then
    (level1RawScores taxonomy text).map
      (fun p => (p.1, p.2 / level1MaxScore taxonomy text))
  else level1RawScores taxonomy text

/-- `MultiLevelClassifier._classify_level_1`: score each top-level category,
normalize by the maximum when positive, and pick the first maximal key
(`"other"` only when the taxonomy, hence the score dict, is empty); the
confidence is the picked key's normalized score, rounded to 3 decimals. -/
def classifyLevel1 (taxonomy : List (String × TaxCategory)) (text : String) :
    Level1Result :=
  let scores' := level1NormScores taxonomy text
  let best := match argmaxFirst scores' with
    | some b => b.1
    | none => "other"
  { category := best, confidence := round3 ((assocFind scores' best).getD 0),
    allScores := scores' }

/-- Level-2 raw score of one subcategory: `min(count, 3)` summed over every
keyword of its leaves that occurs in the text. -/
def level2Score (text : String) (sub : TaxSub) : ℚ :=
  (sub.sub_subcategories.map (fun ss =>
    (ss.2.keywords.map (fun kw =>
      let c := pyCount (pyLower text) (pyLower kw)
      if 0 < c then ((min c 3 : ℕ) : ℚ) else 0)).sum)).sum

/-- Result of `MultiLevelClassifier._classify_level_2`. -/
structure Level2Result where
  subcategory : Option String
  confidence : ℚ
  name : String
  allScores : List (String × ℚ) := []
deriving Repr, DecidableEq

/-- `MultiLevelClassifier._classify_level_2`. -/
def classifyLevel2 (taxonomy : List (String × TaxCategory)) (text : String)
    (category : String) : Level2Result :=
  match assocFind taxonomy category with
  | none => { subcategory := none, confidence := 0, name := "" }
  | some cat =>
    let scores := cat.subcategories.map (fun p => (p.1, level2Score text p.2))
    let maxScore := pyMax (scores.map Prod.snd)
    let scores' :=
      if 0 < maxScore then scores.map (fun p => (p.1, p.2 / maxScore)) else scores
    match argmaxFirst scores' with
    | none => { subcategory := none, confidence := round3 0, name := "", allScores := scores' }
    | some b =>
      { subcategory := some b.1, confidence := round3 ((assocFind scores' b.1).getD 0),
        name := ((assocFind cat.subcategories b.1).map TaxSub.name).getD "",
        allScores := scores' }

/-- Level-3 raw score of one leaf: `min(count * 1.5, 5)` for each keyword
that occurs in the text (the source re-checks occurrence with a substring
test before adding). -/
def level3Score (text : String) (ss : TaxSubSub) : ℚ :=
  (ss.keywords.map (fun kw =>
    let c := pyCount (pyLower text) (pyLower kw)
    if 0 < c then
      (if pyContains (pyLower text) (pyLower kw) then min ((c : ℚ) * (3/2)) 5 else 0)
    else 0)).sum

/-- `MultiLevelClassifier._get_matched_keywords`. -/
def getMatchedKeywords (text : String) (keywords : List String) : List String :=
  keywords.filter (fun kw => pyContains (pyLower text) (pyLower kw))

/-- Result of `MultiLevelClassifier._classify_level_3`. -/
structure Level3Result where
  sub_subcategory : Option String
  confidence : ℚ
  name : String
  allScores : List (String × ℚ) := []
  matchedKeywords : List String := []
deriving Repr, DecidableEq

/-- `MultiLevelClassifier._classify_level_3`. -/
def classifyLevel3 (taxonomy : List (String × TaxCategory)) (text : String)
    (category : String) (subcategory : Option String) : Level3Result :=
  match assocFind taxonomy category with
  | none => { sub_subcategory := none, confidence := 0, name := "" }
  | some cat =>
    match subcategory.bind (assocFind cat.subcategories) with
    | none => { sub_subcategory := none, confidence := 0, name := "" }
    | some sub =>
      let scores := sub.sub_subcategories.map (fun p => (p.1, level3Score text p.2))
      let maxScore := pyMax (scores.map Prod.snd)
      let scores' :=
        if 0 < maxScore then scores.map (fun p => (p.1, p.2 / maxScore)) else scores
      match argmaxFirst scores' with
      | none => { sub_subcategory := none, confidence := round3 0, name := "", allScores := scores' }
      | some b =>
        { sub_subcategory := some b.1,
          confidence := round3 ((assocFind scores' b.1).getD 0),
          name := ((assocFind sub.sub_subcategories b.1).map TaxSubSub.name).getD "",
          allScores := scores',
          matchedKeywords :=
            ((assocFind sub.sub_subcategories b.1).map
              (fun ssd => getMatchedKeywords text ssd.keywords)).getD [] }

/-- `get_category_path` from config/category_taxonomy.py. -/
def getCategoryPath (taxonomy : List (String × TaxCategory)) (category : String)
    (subcategory sub_subcategory : Option String) : List String :=
  match assocFind taxonomy category with
  | none => []
  | some cat =>
    match subcategory.bind (assocFind cat.subcategories) with
    | none => [cat.name]
    | some sub =>
      match sub_subcategory.bind (assocFind sub.sub_subcategories) with
      | none => [cat.name, sub.name]
      | some ss => [cat.name, sub.name, ss.name]

/-- Result of `MultiLevelClassifier.classify`. -/
structure MultiLevelResult where
  category : String
  category_name : String
  category_confidence : ℚ
  subcategory : Option String
  subcategory_name : String
  subcategory_confidence : ℚ
  sub_subcategory : Option String
  sub_subcategory_name : String
  sub_subcategory_confidence : ℚ
  full_path : List String
  method : String
  overall_confidence : ℚ
deriving Repr, DecidableEq

/-- `MultiLevelClassifier.classify`: run the three levels on the combined
text (title twice) and blend the overall confidence as
`0.3·L1 + 0.3·L2 + 0.4·L3`. -/
def multiLevelClassify (taxonomy : List (String × TaxCategory))
    (title content : String) : MultiLevelResult :=
  let text := combinedText title content
  let r1 := classifyLevel1 taxonomy text
  let r2 := classifyLevel2 taxonomy text r1.category
  let r3 := classifyLevel3 taxonomy text r1.category r2.subcategory
  { category := r1.category,
    category_name := ((assocFind taxonomy r1.category).map TaxCategory.name).getD "",
    category_confidence := r1.confidence,
    subcategory := r2.subcategory,
    subcategory_name := r2.name,
    subcategory_confidence := r2.confidence,
    sub_subcategory := r3.sub_subcategory,
    sub_subcategory_name := r3.name,
    sub_subcategory_confidence := r3.confidence,
    full_path := getCategoryPath taxonomy r1.category r2.subcategory r3.sub_subcategory,
    method := "multi_level_rule_based",
    overall_confidence :=
      r1.confidence * (3/10) + r2.confidence * (3/10) + r3.confidence * (2/5) }

/-! ## AI classifier (src/classifier/ai_classifier.py)

The network request and `json.loads` are external effects; the request is
modelled as a function from the attempt number to either a reply text or a
raised exception (its `str(e)`), and the JSON decoder as a function from the
extracted string to an optional decoded value (`none` = `json.JSONDecodeError`). -/

/-- A decoded JSON value, as produced by `json.loads`. -/
inductive Json where
  | null : Json
  | bool (b : Bool) : Json
  | num (q : ℚ) : Json
  | str (s : String) : Json
  | arr (l : List Json) : Json
  | obj (l : List (String × Json)) : Json

/-- The exceptions `_parse_response` can meet: `ValueError` is caught by its
`except (json.JSONDecodeError, ValueError)` clause, `TypeError` is not and
propagates to the caller. -/
inductive PyErr where
  | valueError : PyErr
  | typeError : PyErr
deriving Repr, DecidableEq

/-- The opening brace character. -/
def lbrace : Char := Char.ofNat 123

/-- The closing brace character. -/
def rbrace : Char := Char.ofNat 125

/-- Python `s.find(c)` (as an index when the character occurs). -/
def pyFindChar (s : String) (c : Char) : Option ℕ := s.toList.findIdx? (· = c)

/-- Python `s.rfind(c)` (as an index when the character occurs). -/
def pyRFindChar (s : String) (c : Char) : Option ℕ :=
  (s.toList.reverse.findIdx? (· = c)).map (fun i => s.toList.length - 1 - i)

/-- Python slice `s[a:b]` with nonnegative indices. -/
def pySlice (s : String) (a b : ℕ) : String := ⟨(s.toList.drop a).take (b - a)⟩

/-- Digit run to a natural number. -/
def digitsToNat (l : List Char) : ℕ := l.foldl (fun a c => a * 10 + (c.toNat - 48)) 0

/-- Modelled from the Python standard library: `float(s)` on plain decimal
literals (optional sign, digits, optional fractional part); exponent, `inf`
and `nan` forms never arise for the confidence strings the classifier meets. -/
def parseDecimal (s : String) : Option ℚ :=
  let l := ((s.toList.dropWhile Char.isWhitespace).reverse.dropWhile Char.isWhitespace).reverse
  let sl : ℚ × List Char := match l with
    | '-' :: t => (-1, t)
    | '+' :: t => (1, t)
    | _ => (1, l)
  let sign := sl.1
  let l := sl.2
  let intPart := l.takeWhile Char.isDigit
  let rest := l.dropWhile Char.isDigit
  match rest with
  | [] => if intPart.isEmpty then none else some (sign * digitsToNat intPart)
  | '.' :: fr =>
    if fr.all Char.isDigit && !(intPart.isEmpty && fr.isEmpty) then
      some (sign * ((digitsToNat intPart : ℚ) + (digitsToNat fr : ℚ) / 10 ^ fr.length))
    else none
  | _ => none

/-- Modelled from the Python standard library: `float(x)` on a decoded JSON
value; non-numeric strings raise `ValueError`, non-castable types `TypeError`. -/
def pyFloat : Json → Except PyErr ℚ
  | .num q => .ok q
  | .bool b => .ok (if b then 1 else 0)
  | .str s =>
    match parseDecimal s with
    | some q => .ok q
    | none => .error .valueError
  | .null => .error .typeError
  | .arr _ => .error .typeError
  | .obj _ => .error .typeError

/-- The Chinese-label-to-key mapping inside `AIClassifier._parse_response`. -/
def AI_CATEGORY_MAPPING : List (String × String) :=
  [("心理咨询", "psychology"), ("企业管理", "management"),
   ("财务会计税务", "finance"), ("其他", "other")]

/-- The non-JSON fallback of `AIClassifier._parse_response`: substring-search
the canonical labels in fixed priority order, confidence 0.5, method tagged
as a fallback. -/
def fallbackParse (model response_text : String) : ClassResult :=
  let category :=
    if pyContains response_text "心理咨询" then "psychology"
    else if pyContains response_text "企业管理" then "management"
    else if pyContains response_text "财务会计税务" || pyContains response_text "财务" then "finance"
    else "other"
  { category := category, confidence := 1/2,
    reasoning := "Parsed from non-JSON response",
    method := "ai_" ++ model ++ "_fallback" }

/-- `AIClassifier._parse_response`: extract the substring from the first `{`
to the last `}`, decode it, and on a decoded dict with a `category` key map
the label (unknown labels to `"other"`) and cast the confidence (default 0.5
when the key is missing); a decode failure, a missing `category` key or a
`ValueError` from the cast falls through to `fallbackParse`, while a
`TypeError` propagates.  A non-string `reasoning` value is modelled as `""`. -/
def parseResponse (jsonParse : String → Option Json) (model response_text : String) :
    Except PyErr ClassResult :=
  let tryResult : Except PyErr (Option ClassResult) :=
    match pyFindChar response_text lbrace, pyRFindChar response_text rbrace with
    | some start, some rb =>
      if rb + 1 > start then
        match jsonParse (pySlice response_text start (rb + 1)) with
        | none => .ok none
        | some j =>
          match j with
          | .obj kvs =>
            match assocFind kvs "category" with
            | some catv =>
              let keyOrErr : Except PyErr String := match catv with
                | .str s => .ok ((assocFind AI_CATEGORY_MAPPING s).getD "other")
                | .arr _ => .error .typeError    -- unhashable dict key
                | .obj _ => .error .typeError    -- unhashable dict key
                | _ => .ok "other"
              match keyOrErr with
              | .error e => .error e
              | .ok categoryKey =>
                let reason : String := match assocFind kvs "reasoning" with
                  | some (.str s) => s
                  | _ => ""
                match pyFloat ((assocFind kvs "confidence").getD (.num (1/2))) with
                | .ok conf =>
                  .ok (some { category := categoryKey, confidence := conf,
                              reasoning := reason, method := "ai_" ++ model })
                | .error .valueError => .ok none
                | .error .typeError => .error .typeError
            | none => .ok none
          | .arr l =>
            if l.any (fun x => match x with | .str s => s = "category" | _ => false) then
              .error .typeError
            else .ok none
          | .str s => if pyContains s "category" then .error .typeError else .ok none
          | _ => .error .typeError    -- `"category" in <non-container>` raises
      else .ok none
    | _, _ => .ok none
  match tryResult with
  | .error e => .error e
  | .ok (some r) => .ok r
  | .ok none => .ok (fallbackParse model response_text)

/-- The backoff `(2 ** attempt) + 1` of `AIClassifier.classify`. -/
def backoff (attempt : ℕ) : ℚ := 2 ^ attempt + 1

/-- The fallback result returned when every retry of `AIClassifier.classify`
has failed. -/
def API_ERROR_RESULT (model e : String) : ClassResult :=
  { category := "other", confidence := 0,
    reasoning := "API error: " ++ e,
    method := "ai_" ++ model ++ "_error" }

/-- One iteration body of the `try` in `AIClassifier.classify`: the request
followed by response parsing; an exception escaping `_parse_response` is
caught by the same blanket `except Exception` as a request failure. -/
def aiAttempt (jsonParse : String → Option Json) (model : String)
    (request : ℕ → Except String String) (i : ℕ) : Except String ClassResult :=
  match request i with
  | .error e => .error e
  | .ok text =>
    match parseResponse jsonParse model text with
    | .ok r => .ok r
    | .error .valueError => .error "ValueError"
    | .error .typeError => .error "TypeError"

/-- The `for attempt in range(max_retries)` loop of `AIClassifier.classify`.
The second numeric argument is the number of attempts remaining
(`max_retries - attempt`).  Returns the classification result (`none` models
Python's implicit `None` when `max_retries == 0`) together with the list of
backoff sleeps performed, in order. -/
def aiClassifyLoop (attemptOutcome : ℕ → Except String ClassResult) (model : String) :
    ℕ → ℕ → Option ClassResult × List ℚ
  | _, 0 => (none, [])
  | attempt, remaining + 1 =>
    match attemptOutcome attempt with
    | .ok r => (some r, [])
    | .error e =>
      match remaining with
      | 0 => (some (API_ERROR_RESULT model e), [])
      | r + 1 =>
        let rest := aiClassifyLoop attemptOutcome model (attempt + 1) (r + 1)
        (rest.1, backoff attempt :: rest.2)

/-- `AIClassifier.classify` with an effective retry budget `maxRetries`. -/
def aiClassify (jsonParse : String → Option Json) (model : String)
    (request : ℕ → Except String String) (maxRetries : ℕ) :
    Option ClassResult × List ℚ :=
  aiClassifyLoop (aiAttempt jsonParse model request) model 0 maxRetries

/-! ## Hybrid classifier (src/classifier/ai_classifier.py, `HybridClassifier`)

The AI classifier member is modelled as an optional state-passing function so
that an instantiation can count its invocations; `HybridClassifier.classify`
threads the state through the single call it can make. -/

/-- `HybridClassifier.classify`: accept the rule-based result when its
confidence reaches the threshold; otherwise defer to the AI classifier when
one is configured, else return the low-confidence rule-based result. -/
def hybridClassify {σ : Type} (rules : List (String × CategoryRule)) (threshold : ℚ)
    (aiClassifier : Option (σ → String → String → ClassResult × σ)) (s : σ)
    (title content : String) : ClassResult × σ :=
  let ruleResult := ruleClassify rules title content
  if ruleResult.confidence ≥ threshold then (ruleResult, s)
  else
    match aiClassifier with
    | some ai => ai s title content
    | none => (ruleResult, s)

/-! ## Text cleaner (src/utils/text_cleaner.py)

`clean_html` (BeautifulSoup) and `clean_text` (Unicode regular expressions)
are kept as abstract string transformers: the properties verified here do not
depend on their output beyond it being some string.  Everything downstream
(`remove_duplicates`, `calculate_quality_score`, `check_spam_or_ads`,
`process_article`) is embedded concretely. -/

/-- Python `str.strip()`. -/
def pyStrip (s : String) : String :=
  ⟨((s.toList.dropWhile Char.isWhitespace).reverse.dropWhile Char.isWhitespace).reverse⟩

/-- `TextCleaner.remove_duplicates`: split on newlines, strip each paragraph,
keep the first occurrence of each nonempty paragraph, rejoin with newlines. -/
def removeDuplicates (text : String) : String :=
  if text = "" then ""
  else
    let paragraphs := text.splitOn "\n"
    let uniq := paragraphs.foldl (fun out para =>
      let p := pyStrip para
      if p ≠ "" && !(out.contains p) then out ++ [p] else out) []
    String.intercalate "\n" uniq

/-- Number of characters of a string satisfying a predicate. -/
def countIf (p : Char → Bool) (s : String) : ℕ := (s.toList.filter p).length

/-- CJK unified ideographs, the `[一-鿿]` class of the source. -/
def isChineseChar (c : Char) : Bool := 0x4e00 ≤ c.toNat && c.toNat ≤ 0x9fff

/-- The punctuation class of `calculate_quality_score` (fullwidth punctuation
and CJK quotation marks). -/
def QUALITY_PUNCT : List Char :=
  ['，', '。', '！', '？', '；', '：',
   Char.ofNat 0x201C, Char.ofNat 0x201D, Char.ofNat 0x2018, Char.ofNat 0x2019,
   '《', '》', '（', '）']

/-- `TextCleaner.calculate_quality_score`: 0 for empty text, otherwise the
weighted sum of the length band (0.3), title presence (0.1), paragraph
structure (0.2), character-variety (0.2) and punctuation-density (0.2)
components, capped at 1. -/
def calculateQualityScore (min_length max_length : ℕ) (text title : String) : ℚ :=
  if text = "" then 0
  else
    let length := text.length
    let lengthScore : ℚ :=
      if min_length ≤ length ∧ length ≤ max_length then 1
      else if length < min_length then (length : ℚ) / (min_length : ℚ)
      else max (1/2) (1 - ((length : ℚ) - (max_length : ℚ)) / (max_length : ℚ))
    let score := lengthScore * (3/10)
    let score := if title ≠ "" ∧ 10 ≤ title.length then score + 1/10 else score
    let paragraphs := ((text.splitOn "\n").map pyStrip).filter (· ≠ "")
    let score :=
      if 3 ≤ paragraphs.length then score + 1/5
      else if 1 ≤ paragraphs.length then score + 1/10
      else score
    let chinese := countIf isChineseChar text
    let english := countIf Char.isAlpha text
    let numbers := countIf Char.isDigit text
    let score := if 100 < chinese then score + 1/10 else score
    let score := if 10 < english ∨ 5 < numbers then score + 1/10 else score
    let punct := countIf (fun c => QUALITY_PUNCT.contains c) text
    let score :=
      if (length : ℚ) / 50 < (punct : ℚ) then score + 1/5
      else if (length : ℚ) / 100 < (punct : ℚ) then score + 1/10
      else score
    min 1 score

/-- `TextCleaner.check_spam_or_ads`: lowercase-substring-search every
exclusion keyword in `title + " " + text`, recording `"category:keyword"`
for each hit; spam iff any hit. -/
def checkSpamOrAds (exclusion : List (String × List String)) (text title : String) :
    Bool × List String :=
  let combined := pyLower (title ++ " " ++ text)
  let matched := (exclusion.map (fun p =>
    (p.2.filter (fun kw => pyContains combined (pyLower kw))).map
      (fun kw => p.1 ++ ":" ++ kw))).flatten
  (!matched.isEmpty, matched)

/-- The dict returned by `TextCleaner.process_article`. -/
structure ProcessedArticle where
  title : String
  content : String
  content_length : ℕ
  quality_score : ℚ
  is_valid : Bool
  is_spam : Bool
  spam_keywords : List String
deriving Repr, DecidableEq

/-- `TextCleaner.process_article`: strip HTML when the raw content looks like
markup, clean both fields, deduplicate paragraphs, then assess quality and
spam; `is_valid` requires the cleaned length within bounds, no spam hit and a
quality score of at least 0.5. -/
def processArticle (min_length max_length : ℕ)
    (cleanHtml cleanText : String → String)
    (exclusion : List (String × List String)) (title content : String) :
    ProcessedArticle :=
  let content :=
    if pyContains content "<" && pyContains content ">" then cleanHtml content
    else content
  let content := cleanText content
  let title := cleanText title
  let content := removeDuplicates content
  let quality_score := calculateQualityScore min_length max_length content title
  let spam := checkSpamOrAds exclusion content title
  let is_valid :=
    decide (min_length ≤ content.length) && decide (content.length ≤ max_length)
      && !spam.1 && decide ((1/2 : ℚ) ≤ quality_score)
  { title := title, content := content, content_length := content.length,
    quality_score := quality_score, is_valid := is_valid,
    is_spam := spam.1, spam_keywords := spam.2 }

/-! ## Helper lemmas on folds, maxima and argmax -/

theorem foldl_max_exch (l : List ℚ) : ∀ a x : ℚ, l.foldl max (max a x) = max x (l.foldl max a) := by
  induction l with
  | nil => intro a x; simp [max_comm]
  | cons y t ih =>
    intro a x
    simp only [List.foldl_cons]
    rw [sup_right_comm a x y, ih (max a y) x]

theorem foldl_max_cons_out (l : List ℚ) (a x : ℚ) :
    (x :: l).foldl max a = max x (l.foldl max a) := by
  simp only [List.foldl_cons]
  exact foldl_max_exch l a x

theorem le_foldl_max (l : List ℚ) : ∀ a : ℚ, a ≤ l.foldl max a := by
  induction l with
  | nil => intro a; exact le_refl a
  | cons x t ih =>
    intro a
    rw [foldl_max_cons_out]
    exact le_max_of_le_right (ih a)

theorem mem_le_foldl_max (l : List ℚ) : ∀ (a x : ℚ), x ∈ l → x ≤ l.foldl max a := by
  induction l with
  | nil => intro a x h; exact absurd h (List.not_mem_nil x)
  | cons y t ih =>
    intro a x h
    rw [foldl_max_cons_out]
    rcases List.mem_cons.mp h with h | h
    · rw [h]; exact le_max_left y (t.foldl max a)
    · exact le_max_of_le_right (ih a x h)

theorem foldl_max_eq_seed_or_mem (l : List ℚ) : ∀ a : ℚ,
    l.foldl max a = a ∨ l.foldl max a ∈ l := by
  induction l with
  | nil => intro a; exact Or.inl rfl
  | cons x t ih =>
    intro a
    rw [foldl_max_cons_out]
    rcases le_total x (t.foldl max a) with h | h
    · rw [max_eq_right h]
      rcases ih a with h' | h'
      · exact Or.inl h'
      · exact Or.inr (List.mem_cons_of_mem x h')
    · rw [max_eq_left h]
      exact Or.inr (List.mem_cons_self x t)

theorem pyMax_mem (l : List ℚ) (h : l ≠ []) : pyMax l ∈ l := by
  match l with
  | [] => exact absurd rfl h
  | x :: xs =>
    show xs.foldl max x ∈ x :: xs
    rcases foldl_max_eq_seed_or_mem xs x with h' | h'
    · rw [h']; exact List.mem_cons_self x xs
    · exact List.mem_cons_of_mem x h'

theorem le_pyMax (l : List ℚ) (x : ℚ) (h : x ∈ l) : x ≤ pyMax l := by
  match l with
  | [] => exact absurd h (List.not_mem_nil x)
  | y :: ys =>
    show x ≤ ys.foldl max y
    rcases List.mem_cons.mp h with h' | h'
    · rw [h']; exact le_foldl_max ys y
    · exact mem_le_foldl_max ys y x h'

theorem pyMax_nonneg (l : List ℚ) (h : ∀ x ∈ l, 0 ≤ x) : 0 ≤ pyMax l := by
  match l with
  | [] => exact le_refl 0
  | y :: ys =>
    exact le_trans (h y (List.mem_cons_self y ys)) (le_pyMax _ y (List.mem_cons_self y ys))

theorem pyMax_eq_zero_iff (l : List ℚ) (h : ∀ x ∈ l, 0 ≤ x) :
    pyMax l = 0 ↔ ∀ x ∈ l, x = 0 := by
  constructor
  · intro h0 x hx
    have h1 := le_pyMax l x hx
    rw [h0] at h1
    exact le_antisymm h1 (h x hx)
  · intro hz
    match l with
    | [] => rfl
    | y :: ys => exact hz _ (pyMax_mem (y :: ys) (by simp))

theorem foldl_max_div (l : List ℚ) (m : ℚ) (hm : 0 < m) : ∀ a : ℚ,
    (l.map (fun x => x / m)).foldl max (a / m) = (l.foldl max a) / m := by
  induction l with
  | nil => intro a; rfl
  | cons x t ih =>
    intro a
    simp only [List.map_cons]
    rw [foldl_max_cons_out, foldl_max_cons_out, ih a, max_div_div_right hm.le]

theorem argmax_foldl_snd (rest : List (String × ℚ)) : ∀ p : String × ℚ,
    (rest.foldl (fun q r => if r.2 > q.2 then r else q) p).2 =
      (rest.map Prod.snd).foldl max p.2 := by
  induction rest with
  | nil => intro p; rfl
  | cons r t ih =>
    intro p
    simp only [List.foldl_cons, List.map_cons]
    rw [ih]
    congr 1
    by_cases h : r.2 > p.2
    · rw [if_pos h, max_eq_right h.le]
    · rw [if_neg h, max_eq_left (le_of_not_lt h)]

theorem argmax_foldl_mem (rest : List (String × ℚ)) : ∀ p : String × ℚ,
    rest.foldl (fun q r => if r.2 > q.2 then r else q) p = p ∨
      rest.foldl (fun q r => if r.2 > q.2 then r else q) p ∈ rest := by
  induction rest with
  | nil => intro p; exact Or.inl rfl
  | cons r t ih =>
    intro p
    simp only [List.foldl_cons]
    by_cases h : r.2 > p.2
    · rw [if_pos h]
      rcases ih r with h' | h'
      · rw [h']
        exact Or.inr (List.mem_cons_self r t)
      · exact Or.inr (List.mem_cons_of_mem r h')
    · rw [if_neg h]
      rcases ih p with h' | h'
      · exact Or.inl h'
      · exact Or.inr (List.mem_cons_of_mem r h')

theorem argmax_foldl_eq_find (rest : List (String × ℚ)) : ∀ p : String × ℚ,
    (p :: rest).find? (fun r => decide (r.2 = (rest.map Prod.snd).foldl max p.2)) =
      some (rest.foldl (fun q r => if r.2 > q.2 then r else q) p) := by
  induction rest with
  | nil =>
    intro p
    simp [List.find?]
  | cons r t ih =>
    intro p
    by_cases hr : r.2 > p.2
    · have hM : ((r :: t).map Prod.snd).foldl max p.2 = (t.map Prod.snd).foldl max r.2 := by
        simp only [List.map_cons, List.foldl_cons, max_eq_right hr.le]
      have hpne : ¬ p.2 = ((r :: t).map Prod.snd).foldl max p.2 := by
        rw [hM]
        exact ne_of_lt (lt_of_lt_of_le hr (le_foldl_max _ _))
      rw [hM, List.find?_cons_of_neg _ (by simpa using (hM ▸ hpne)),
          List.foldl_cons, if_pos hr]
      exact ih r
    · have hM : ((r :: t).map Prod.snd).foldl max p.2 = (t.map Prod.snd).foldl max p.2 := by
        simp only [List.map_cons, List.foldl_cons, max_eq_left (le_of_not_lt hr)]
      rw [hM, List.foldl_cons, if_neg hr]
      by_cases hp : p.2 = (t.map Prod.snd).foldl max p.2
      · have hfold : t.foldl (fun q r => if r.2 > q.2 then r else q) p = p := by
          have h2 := ih p
          rw [List.find?_cons_of_pos _ (by simpa using hp)] at h2
          exact (Option.some.inj h2).symm
        rw [List.find?_cons_of_pos _ (by simpa using hp), hfold]
      · have hrne : ¬ r.2 = (t.map Prod.snd).foldl max p.2 := by
          intro hcon
          apply hp
          have h1 : p.2 ≤ (t.map Prod.snd).foldl max p.2 := le_foldl_max _ _
          have h2 : (t.map Prod.snd).foldl max p.2 ≤ p.2 := by
            rw [← hcon]
            exact le_of_not_lt hr
          exact le_antisymm h1 h2
        rw [List.find?_cons_of_neg _ (by simpa using hp),
            List.find?_cons_of_neg _ (by simpa using hrne)]
        have h2 := ih p
        rw [List.find?_cons_of_neg _ (by simpa using hp)] at h2
        exact h2

/-- Package of the argmax facts: on a nonempty score dict, `argmaxFirst`
returns an entry of the dict whose value is the maximum, and it is the first
entry attaining the maximum. -/
theorem argmaxFirst_spec (l : List (String × ℚ)) (hne : l ≠ []) :
    ∃ b, argmaxFirst l = some b ∧
      l.find? (fun r => decide (r.2 = pyMax (l.map Prod.snd))) = some b ∧
      b.2 = pyMax (l.map Prod.snd) ∧ b ∈ l := by
  match l with
  | [] => exact absurd rfl hne
  | p :: rest =>
    have hpy : pyMax ((p :: rest).map Prod.snd) = (rest.map Prod.snd).foldl max p.2 := rfl
    have hb : argmaxFirst (p :: rest) =
        some (rest.foldl (fun q r => if r.2 > q.2 then r else q) p) := rfl
    refine ⟨rest.foldl (fun q r => if r.2 > q.2 then r else q) p, hb, ?_, ?_, ?_⟩
    · rw [hpy]
      exact argmax_foldl_eq_find rest p
    · rw [hpy]
      exact argmax_foldl_snd rest p
    · rcases argmax_foldl_mem rest p with h | h
      · rw [h]
        exact List.mem_cons_self p rest
      · exact List.mem_cons_of_mem p h

/-! ## Facts about the rule-based classifier -/

/-- Whether some keyword of some category occurs in the text. -/
def ruleMatchedAny (rules : List (String × CategoryRule)) (text : String) : Bool :=
  rules.any (fun p =>
    p.2.keywords.any (fun q => decide (0 < pyCount (pyLower text) (pyLower q.1))))

theorem keywordTerm_nonneg (text : String) (p : String × ℚ) (hw : 0 ≤ p.2) :
    0 ≤ keywordTerm text p := by
  unfold keywordTerm
  dsimp only
  split
  · exact div_nonneg (mul_nonneg hw (by positivity)) (by norm_num)
  · exact le_refl 0

theorem categoryScore_nonneg (text : String) (rule : CategoryRule)
    (hw : ∀ q ∈ rule.keywords, 0 ≤ q.2) : 0 ≤ categoryScore text rule := by
  unfold categoryScore
  apply List.sum_nonneg
  intro x hx
  obtain ⟨q, hq, rfl⟩ := List.mem_map.mp hx
  exact keywordTerm_nonneg text q (hw q hq)

theorem categoryScore_pos (text : String) (rule : CategoryRule)
    (hw : ∀ q ∈ rule.keywords, 0 < q.2) (q : String × ℚ) (hq : q ∈ rule.keywords)
    (hc : 0 < pyCount (pyLower text) (pyLower q.1)) : 0 < categoryScore text rule := by
  have hterm : 0 < keywordTerm text q := by
    unfold keywordTerm
    dsimp only
    rw [if_pos hc]
    apply div_pos
    · apply mul_pos (hw q hq)
      have h5 : 0 < min (pyCount (pyLower text) (pyLower q.1)) 5 := lt_min hc (by norm_num)
      exact_mod_cast h5
    · norm_num
  have hmem : keywordTerm text q ∈ rule.keywords.map (keywordTerm text) :=
    List.mem_map_of_mem _ hq
  have hle : keywordTerm text q ≤ (rule.keywords.map (keywordTerm text)).sum := by
    apply List.single_le_sum _ _ hmem
    intro x hx
    obtain ⟨q', hq', rfl⟩ := List.mem_map.mp hx
    exact keywordTerm_nonneg text q' (hw q' hq').le
  exact lt_of_lt_of_le hterm hle

theorem categoryScore_eq_zero (text : String) (rule : CategoryRule)
    (h : ∀ q ∈ rule.keywords, pyCount (pyLower text) (pyLower q.1) = 0) :
    categoryScore text rule = 0 := by
  unfold categoryScore
  apply List.sum_eq_zero
  intro x hx
  obtain ⟨q, hq, rfl⟩ := List.mem_map.mp hx
  unfold keywordTerm
  dsimp only
  rw [if_neg]
  rw [h q hq]
  exact lt_irrefl 0

theorem maxRawScore_pos (rules : List (String × CategoryRule)) (text : String)
    (hw : ∀ p ∈ rules, ∀ q ∈ p.2.keywords, 0 < q.2)
    (hm : ruleMatchedAny rules text = true) : 0 < maxRawScore rules text := by
  obtain ⟨p, hp, hinner⟩ := List.any_eq_true.mp hm
  obtain ⟨q, hq, hc⟩ := List.any_eq_true.mp hinner
  have hc' : 0 < pyCount (pyLower text) (pyLower q.1) := of_decide_eq_true hc
  have hscore : 0 < categoryScore text p.2 := categoryScore_pos text p.2 (hw p hp) q hq hc'
  have hmem : categoryScore text p.2 ∈ (rawScores rules text).map Prod.snd := by
    unfold rawScores
    rw [List.map_map]
    exact List.mem_map_of_mem _ hp
  exact lt_of_lt_of_le hscore (le_pyMax _ _ hmem)

theorem unmatched_counts (rules : List (String × CategoryRule)) (text : String)
    (hm : ruleMatchedAny rules text = false) :
    ∀ p ∈ rules, ∀ q ∈ p.2.keywords, pyCount (pyLower text) (pyLower q.1) = 0 := by
  intro p hp q hq
  simp only [ruleMatchedAny, List.any_eq_false, Bool.not_eq_true, decide_eq_false_iff_not,
    not_lt, Nat.le_zero] at hm
  exact hm p hp q hq

theorem rawScores_all_zero (rules : List (String × CategoryRule)) (text : String)
    (hm : ruleMatchedAny rules text = false) :
    ∀ v ∈ (rawScores rules text).map Prod.snd, v = 0 := by
  intro v hv
  unfold rawScores at hv
  rw [List.map_map] at hv
  obtain ⟨p, hp, rfl⟩ := List.mem_map.mp hv
  exact categoryScore_eq_zero text p.2 (unmatched_counts rules text hm p hp)

theorem maxRawScore_unmatched (rules : List (String × CategoryRule)) (text : String)
    (hm : ruleMatchedAny rules text = false) : maxRawScore rules text = 0 := by
  unfold maxRawScore
  rw [pyMax_eq_zero_iff]
  · exact rawScores_all_zero rules text hm
  · intro x hx
    rw [rawScores_all_zero rules text hm x hx]

theorem pyMax_div (l : List ℚ) (m : ℚ) (hm : 0 < m) :
    pyMax (l.map (fun x => x / m)) = pyMax l / m := by
  match l with
  | [] =>
    show (0 : ℚ) = 0 / m
    rw [zero_div]
  | x :: xs =>
    show (xs.map (fun x => x / m)).foldl max (x / m) = (xs.foldl max x) / m
    exact foldl_max_div xs m hm x

theorem normScores_map_snd (rules : List (String × CategoryRule)) (text : String)
    (hpos : 0 < maxRawScore rules text) :
    (normScores rules text).map Prod.snd =
      ((rawScores rules text).map Prod.snd).map (fun x => x / maxRawScore rules text) := by
  unfold normScores
  rw [if_pos hpos]
  simp only [List.map_map]
  rfl

theorem normScores_pyMax_one (rules : List (String × CategoryRule)) (text : String)
    (hpos : 0 < maxRawScore rules text) :
    pyMax ((normScores rules text).map Prod.snd) = 1 := by
  rw [normScores_map_snd rules text hpos, pyMax_div _ _ hpos]
  exact div_self hpos.ne'

theorem normScores_ne_nil (rules : List (String × CategoryRule)) (text : String)
    (h : rules ≠ []) : normScores rules text ≠ [] := by
  unfold normScores rawScores
  split
  · simp [List.map_eq_nil_iff, h]
  · simp [List.map_eq_nil_iff, h]

theorem round3_one : round3 1 = 1 := by
  norm_num [round3, roundHalfEven]

theorem ruleClassify_eq_of_argmax (rules : List (String × CategoryRule))
    (title content : String)
    (hpos : 0 < maxRawScore rules (combinedText title content))
    (b : String × ℚ)
    (hb : argmaxFirst (normScores rules (combinedText title content)) = some b) :
    ruleClassify rules title content =
      { category := if b.2 < CONFIDENCE_THRESHOLD then "other" else b.1,
        confidence := round3 b.2, method := "rule_based",
        allScores := normScores rules (combinedText title content),
        matchedKeywords :=
          (((rules.map (fun p => (p.1, categoryMatches (combinedText title content) p.2))).find?
            (fun p => p.1 = (if b.2 < CONFIDENCE_THRESHOLD then "other" else b.1))).map
              Prod.snd).getD [] } := by
  simp only [ruleClassify]
  rw [if_neg hpos.ne', hb]

theorem ruleClassify_unmatched_spec (rules : List (String × CategoryRule))
    (title content : String)
    (hm : ruleMatchedAny rules (combinedText title content) = false) :
    maxRawScore rules (combinedText title content) = 0 ∧
    normScores rules (combinedText title content) =
      rawScores rules (combinedText title content) ∧
    ruleClassify rules title content =
      { category := "other", confidence := 0, method := "rule_based",
        allScores := normScores rules (combinedText title content) } := by
  have hmax := maxRawScore_unmatched rules (combinedText title content) hm
  refine ⟨hmax, ?_, ?_⟩
  · unfold normScores
    rw [if_neg (by rw [hmax]; exact lt_irrefl 0)]
  · simp only [ruleClassify]
    rw [if_pos hmax]

theorem ruleClassify_matched_spec (rules : List (String × CategoryRule))
    (title content : String)
    (hw : ∀ p ∈ rules, ∀ q ∈ p.2.keywords, 0 < q.2)
    (hm : ruleMatchedAny rules (combinedText title content) = true) :
    ∃ b, argmaxFirst (normScores rules (combinedText title content)) = some b ∧
      (normScores rules (combinedText title content)).find?
        (fun r => decide (r.2 =
          pyMax ((normScores rules (combinedText title content)).map Prod.snd))) = some b ∧
      b.2 = 1 ∧
      (ruleClassify rules title content).category = b.1 ∧
      (ruleClassify rules title content).confidence = 1 := by
  have hpos : 0 < maxRawScore rules (combinedText title content) :=
    maxRawScore_pos rules (combinedText title content) hw hm
  have hrne : rules ≠ [] := by
    obtain ⟨p, hp, _⟩ := List.any_eq_true.mp hm
    exact List.ne_nil_of_mem hp
  obtain ⟨b, hb1, hb2, hb3, _⟩ :=
    argmaxFirst_spec (normScores rules (combinedText title content))
      (normScores_ne_nil rules (combinedText title content) hrne)
  have hbval : b.2 = 1 := by
    rw [hb3, normScores_pyMax_one rules (combinedText title content) hpos]
  have hclass := ruleClassify_eq_of_argmax rules title content hpos b hb1
  have hnot : ¬ b.2 < CONFIDENCE_THRESHOLD := by
    rw [hbval, CONFIDENCE_THRESHOLD]
    norm_num
  refine ⟨b, hb1, hb2, hbval, ?_, ?_⟩
  · rw [hclass]
    simp only [if_neg hnot]
  · rw [hclass]
    simp only [hbval]
    exact round3_one

/-! ## Claims about the single-level rule-based classifier -/

/-- C1.  Single-level rule classifier normalization: for every (title,
content) the scores are divided by the maximum raw score across categories,
so when at least one keyword matched the maximum is positive, the top
normalized score is exactly 1 and the returned confidence is exactly 1; when
no keyword matched, all normalized scores are 0 and the result is category
`"other"` with confidence 0. -/
theorem c1_rule_normalization (title content : String) :
    (ruleMatchedAny KEYWORD_RULES (combinedText title content) = true →
      0 < maxRawScore KEYWORD_RULES (combinedText title content) ∧
      pyMax ((normScores KEYWORD_RULES (combinedText title content)).map Prod.snd) = 1 ∧
      (ruleClassify KEYWORD_RULES title content).confidence = 1) ∧
    (ruleMatchedAny KEYWORD_RULES (combinedText title content) = false →
      (∀ v ∈ (normScores KEYWORD_RULES (combinedText title content)).map Prod.snd, v = 0) ∧
      ruleClassify KEYWORD_RULES title content =
        { category := "other", confidence := 0, method := "rule_based",
          allScores := normScores KEYWORD_RULES (combinedText title content) }) := by
  have hw : ∀ p ∈ KEYWORD_RULES, ∀ q ∈ p.2.keywords, 0 < q.2 := by
    with_unfolding_all decide
  constructor
  · intro hm
    have hpos := maxRawScore_pos KEYWORD_RULES (combinedText title content) hw hm
    obtain ⟨b, _, _, _, _, hconf⟩ :=
      ruleClassify_matched_spec KEYWORD_RULES title content hw hm
    exact ⟨hpos, normScores_pyMax_one _ _ hpos, hconf⟩
  · intro hm
    obtain ⟨_, hnorm, hclass⟩ := ruleClassify_unmatched_spec KEYWORD_RULES title content hm
    refine ⟨?_, hclass⟩
    intro v hv
    rw [hnorm] at hv
    exact rawScores_all_zero KEYWORD_RULES (combinedText title content) hm v hv

/-- Witness for C1 at concrete inputs: the keyword `心理咨询` occurs in the
first title, so its classification has confidence exactly 1; nothing matches
in the empty article, which yields `other` with confidence 0. -/
theorem c1_rule_normalization_witness :
    (ruleClassify KEYWORD_RULES "心理咨询" "").confidence = 1 ∧
    (ruleClassify KEYWORD_RULES "" "").category = "other" ∧
    (ruleClassify KEYWORD_RULES "" "").confidence = 0 := by
  refine ⟨((c1_rule_normalization "心理咨询" "").1 (by with_unfolding_all decide)).2.2, ?_, ?_⟩
  · rw [((c1_rule_normalization "" "").2 (by with_unfolding_all decide)).2]
  · rw [((c1_rule_normalization "" "").2 (by with_unfolding_all decide)).2]

/-- C8.  Single-level demotion: whenever at least one keyword matched, the
winning entry `b` is the first entry of the (enumeration-ordered) normalized
score dict attaining the maximum — ties are broken deterministically by
taxonomy enumeration order —, the returned category is `b.1` demoted to
`"other"` exactly when the normalized confidence is below
`CONFIDENCE_THRESHOLD`, and the returned confidence equals the computed
pre-demotion normalized confidence `b.2`. -/
theorem c8_demotion (title content : String)
    (hm : ruleMatchedAny KEYWORD_RULES (combinedText title content) = true) :
    ∃ b, (normScores KEYWORD_RULES (combinedText title content)).find?
        (fun r => decide (r.2 =
          pyMax ((normScores KEYWORD_RULES (combinedText title content)).map Prod.snd))) =
        some b ∧
      (ruleClassify KEYWORD_RULES title content).category =
        (if b.2 < CONFIDENCE_THRESHOLD then "other" else b.1) ∧
      (ruleClassify KEYWORD_RULES title content).confidence = b.2 := by
  have hw : ∀ p ∈ KEYWORD_RULES, ∀ q ∈ p.2.keywords, 0 < q.2 := by
    with_unfolding_all decide
  obtain ⟨b, _, hfind, hval, hcat, hconf⟩ :=
    ruleClassify_matched_spec KEYWORD_RULES title content hw hm
  refine ⟨b, hfind, ?_, ?_⟩
  · rw [hcat, hval, if_neg (by rw [CONFIDENCE_THRESHOLD]; norm_num)]
  · rw [hconf, hval]

/-- Witness for C8: on a title containing the keyword `心理咨询` the first
maximal normalized entry is `psychology` with value 1, no demotion happens,
and the reported confidence is that entry's (pre-demotion) value. -/
theorem c8_demotion_witness :
    (ruleClassify KEYWORD_RULES "心理咨询" "").category = "psychology" ∧
    (ruleClassify KEYWORD_RULES "心理咨询" "").confidence = 1 := by
  obtain ⟨b, hfind, hcat, hconf⟩ := c8_demotion "心理咨询" "" (by with_unfolding_all decide)
  have hfind' : (normScores KEYWORD_RULES (combinedText "心理咨询" "")).find?
      (fun r => decide (r.2 =
        pyMax ((normScores KEYWORD_RULES (combinedText "心理咨询" "")).map Prod.snd))) =
      some ("psychology", 1) := by
    with_unfolding_all decide
  rw [hfind'] at hfind
  obtain rfl : b = ("psychology", 1) := (Option.some.inj hfind).symm
  refine ⟨?_, hconf⟩
  rw [hcat, if_neg (by rw [CONFIDENCE_THRESHOLD]; norm_num)]

/-- C10.  Implicit invariant: the rule-based confidence is exactly 0 (no
keyword of any category occurs in the combined text) or exactly 1 (some
keyword occurs); consequently, against the default threshold 0.7, the hybrid
dispatcher escalates to the LLM classifier exactly when no keyword occurs. -/
theorem c10_confidence_dichotomy (title content : String) :
    ((ruleClassify KEYWORD_RULES title content).confidence = 0 ∨
      (ruleClassify KEYWORD_RULES title content).confidence = 1) ∧
    ((ruleClassify KEYWORD_RULES title content).confidence = 0 ↔
      ruleMatchedAny KEYWORD_RULES (combinedText title content) = false) ∧
    (∀ (σ : Type) (ai : σ → String → String → ClassResult × σ) (s : σ),
      hybridClassify KEYWORD_RULES CONFIDENCE_THRESHOLD (some ai) s title content =
        if ruleMatchedAny KEYWORD_RULES (combinedText title content) = false
        then ai s title content
        else (ruleClassify KEYWORD_RULES title content, s)) := by
  have hw : ∀ p ∈ KEYWORD_RULES, ∀ q ∈ p.2.keywords, 0 < q.2 := by
    with_unfolding_all decide
  by_cases hm : ruleMatchedAny KEYWORD_RULES (combinedText title content) = true
  · obtain ⟨b, _, _, _, _, hconf⟩ :=
      ruleClassify_matched_spec KEYWORD_RULES title content hw hm
    refine ⟨Or.inr hconf, ?_, ?_⟩
    · rw [hconf, hm]
      constructor
      · intro h
        exact absurd h one_ne_zero
      · intro h
        exact absurd h (by simp)
    · intro σ ai s
      rw [hm]
      simp only [hybridClassify]
      rw [if_pos (by rw [hconf, CONFIDENCE_THRESHOLD]; norm_num)]
      simp
  · have hm' : ruleMatchedAny KEYWORD_RULES (combinedText title content) = false :=
      Bool.not_eq_true _ ▸ (by simpa using hm)
    obtain ⟨_, _, hclass⟩ := ruleClassify_unmatched_spec KEYWORD_RULES title content hm'
    have hconf : (ruleClassify KEYWORD_RULES title content).confidence = 0 := by
      rw [hclass]
    refine ⟨Or.inl hconf, ?_, ?_⟩
    · rw [hconf, hm']
      simp
    · intro σ ai s
      rw [hm']
      simp only [hybridClassify]
      rw [if_neg (by rw [hconf, CONFIDENCE_THRESHOLD]; norm_num)]
      simp

/-! ## Claims about the hybrid dispatcher and the AI classifier -/

/-- C2.  Hybrid dispatcher gating, for any rules and threshold: when the
rule-based confidence reaches the threshold the hybrid output is exactly the
plain rule result with the AI state untouched (the LLM classifier is never
invoked); below the threshold a configured LLM classifier is invoked exactly
once — on the counting instance the state increases by exactly 1 and its
result is returned unchanged —, and with no LLM classifier configured the
low-confidence rule result is returned. -/
theorem c2_hybrid_gating (rules : List (String × CategoryRule)) (threshold : ℚ)
    (title content : String) :
    ((ruleClassify rules title content).confidence ≥ threshold →
      ∀ (σ : Type) (ai : Option (σ → String → String → ClassResult × σ)) (s : σ),
        hybridClassify rules threshold ai s title content =
          (ruleClassify rules title content, s)) ∧
    ((ruleClassify rules title content).confidence < threshold →
      (∀ (σ : Type) (f : σ → String → String → ClassResult × σ) (s : σ),
        hybridClassify rules threshold (some f) s title content = f s title content) ∧
      (∀ (g : String → String → ClassResult) (n : ℕ),
        hybridClassify rules threshold
          (some (fun (k : ℕ) t c => (g t c, k + 1))) n title content =
          (g title content, n + 1)) ∧
      (∀ (σ : Type) (s : σ),
        hybridClassify rules threshold (none (α := σ → String → String → ClassResult × σ))
          s title content = (ruleClassify rules title content, s))) := by
  constructor
  · intro h σ ai s
    simp only [hybridClassify]
    rw [if_pos h]
  · intro h
    refine ⟨?_, ?_, ?_⟩
    · intro σ f s
      simp only [hybridClassify]
      rw [if_neg (not_le.mpr h)]
    · intro g n
      simp only [hybridClassify]
      rw [if_neg (not_le.mpr h)]
    · intro σ s
      simp only [hybridClassify]
      rw [if_neg (not_le.mpr h)]

/-- Witness for C2 with the default rules and threshold 0.7: a matching title
short-circuits to the rule result for every AI classifier (state unchanged);
an empty article escalates, invoking the counting AI classifier exactly once. -/
theorem c2_hybrid_gating_witness :
    (∀ (ai : Option (ℕ → String → String → ClassResult × ℕ)),
      hybridClassify KEYWORD_RULES (7/10) ai 0 "心理咨询" "" =
        (ruleClassify KEYWORD_RULES "心理咨询" "", 0)) ∧
    (∀ (g : String → String → ClassResult),
      hybridClassify KEYWORD_RULES (7/10)
        (some (fun (k : ℕ) t c => (g t c, k + 1))) 0 "" "" = (g "" "", 1)) := by
  have h1 : (ruleClassify KEYWORD_RULES "心理咨询" "").confidence = 1 := by
    with_unfolding_all decide
  have h0 : (ruleClassify KEYWORD_RULES "" "").confidence = 0 := by
    with_unfolding_all decide
  constructor
  · intro ai
    exact (c2_hybrid_gating KEYWORD_RULES (7/10) "心理咨询" "").1
      (by rw [h1]; norm_num) ℕ ai 0
  · intro g
    exact ((c2_hybrid_gating KEYWORD_RULES (7/10) "" "").2
      (by rw [h0]; norm_num)).2.1 g 0

theorem aiClassifyLoop_step (outcome : ℕ → Except String ClassResult)
    (model : String) (attempt r : ℕ) :
    aiClassifyLoop outcome model attempt (r + 1) =
      match outcome attempt with
      | .ok res => (some res, [])
      | .error e =>
        match r with
        | 0 => (some (API_ERROR_RESULT model e), [])
        | r' + 1 =>
          let rest := aiClassifyLoop outcome model (attempt + 1) (r' + 1)
          (rest.1, backoff attempt :: rest.2) := by
  rw [aiClassifyLoop]

theorem aiClassifyLoop_all_fail (outcome : ℕ → Except String ClassResult)
    (err : ℕ → String) (model : String) :
    ∀ (remaining attempt : ℕ), 1 ≤ remaining →
      (∀ i, attempt ≤ i → i < attempt + remaining → outcome i = .error (err i)) →
      aiClassifyLoop outcome model attempt remaining =
        (some (API_ERROR_RESULT model (err (attempt + remaining - 1))),
          (List.range' attempt (remaining - 1)).map backoff) := by
  intro remaining
  induction remaining with
  | zero => intro attempt h; exact absurd h (by norm_num)
  | succ r ih =>
    intro attempt _ herr
    have hout : outcome attempt = .error (err attempt) :=
      herr attempt (le_refl attempt) (by omega)
    match r with
    | 0 =>
      rw [aiClassifyLoop_step, hout]
      simp [List.range']
    | r' + 1 =>
      have hrec := ih (attempt + 1) (by omega) (fun i h1 h2 => herr i (by omega) (by omega))
      rw [aiClassifyLoop_step, hout]
      dsimp only
      rw [hrec]
      have h1 : attempt + 1 + (r' + 1) - 1 = attempt + (r' + 1 + 1) - 1 := by omega
      have h2 : List.range' attempt (r' + 1 + 1 - 1) =
          attempt :: List.range' (attempt + 1) (r' + 1 - 1) := by
        have : r' + 1 + 1 - 1 = (r' + 1 - 1) + 1 := by omega
        rw [this, List.range'_succ]
      rw [h1, h2]
      simp

/-- C3.  LLM classifier retry exhaustion: when every attempted request raises
(attempt `i` raising an exception with message `err i`), `classify` makes
`maxRetries` attempts, sleeping `2^attempt + 1` seconds between consecutive
attempts (`maxRetries - 1` sleeps in total), and after exhaustion returns —
without raising to the caller — a result with category `"other"`, confidence
0.0, a method tag `ai_<model>_error` and the last error embedded in the
reasoning. -/
theorem c3_retry_exhaustion (jsonParse : String → Option Json) (model : String)
    (request : ℕ → Except String String) (err : ℕ → String) (maxRetries : ℕ)
    (hpos : 1 ≤ maxRetries)
    (herr : ∀ i, i < maxRetries → request i = .error (err i)) :
    aiClassify jsonParse model request maxRetries =
      (some { category := "other", confidence := 0,
              reasoning := "API error: " ++ err (maxRetries - 1),
              method := "ai_" ++ model ++ "_error" },
        (List.range (maxRetries - 1)).map (fun a => (2 : ℚ) ^ a + 1)) := by
  have houtcome : ∀ i, 0 ≤ i → i < 0 + maxRetries →
      aiAttempt jsonParse model request i = .error (err i) := by
    intro i _ hi
    unfold aiAttempt
    rw [herr i (by omega)]
  have h := aiClassifyLoop_all_fail (aiAttempt jsonParse model request) err model
    maxRetries 0 hpos houtcome
  unfold aiClassify
  rw [h, List.range_eq_range']
  have h1 : (0 : ℕ) + maxRetries - 1 = maxRetries - 1 := by omega
  rw [h1]
  have h2 : backoff = fun a => (2 : ℚ) ^ a + 1 := by funext a; rfl
  rw [h2]
  rfl

/-- Witness for C3: three attempts all raising `boom` produce the error
result after sleeping 2 and 3 seconds. -/
theorem c3_retry_exhaustion_witness :
    aiClassify (fun _ => none) "zhipu" (fun _ => .error "boom") 3 =
      (some { category := "other", confidence := 0,
              reasoning := "API error: boom", method := "ai_zhipu_error" },
        [2, 3]) := by
  have h := c3_retry_exhaustion (fun _ => none) "zhipu" (fun _ => .error "boom")
    (fun _ => "boom") 3 (by norm_num) (fun i _ => rfl)
  rw [h]
  with_unfolding_all decide

/-- C5.  Multi-level overall confidence blend: for every taxonomy and
(title, content), the overall confidence equals exactly
`0.3·L1 + 0.3·L2 + 0.4·L3` where `L1`, `L2`, `L3` are the per-level
confidences of the three classification levels on the combined text. -/
theorem c5_confidence_blend (taxonomy : List (String × TaxCategory))
    (title content : String) :
    (multiLevelClassify taxonomy title content).overall_confidence =
      (3/10) * (classifyLevel1 taxonomy (combinedText title content)).confidence +
      (3/10) * (classifyLevel2 taxonomy (combinedText title content)
        (classifyLevel1 taxonomy (combinedText title content)).category).confidence +
      (2/5) * (classifyLevel3 taxonomy (combinedText title content)
        (classifyLevel1 taxonomy (combinedText title content)).category
        (classifyLevel2 taxonomy (combinedText title content)
          (classifyLevel1 taxonomy (combinedText title content)).category).subcategory).confidence := by
  simp only [multiLevelClassify]
  ring

/-! ## Claims about the multi-level classifier's level 1 -/

theorem argmax_foldl_keep (rest : List (String × ℚ)) : ∀ p : String × ℚ,
    (∀ r ∈ rest, r.2 ≤ p.2) →
    rest.foldl (fun q r => if r.2 > q.2 then r else q) p = p := by
  induction rest with
  | nil => intro p _; rfl
  | cons r t ih =>
    intro p h
    simp only [List.foldl_cons]
    rw [if_neg (not_lt.mpr (h r (List.mem_cons_self r t)))]
    exact ih p (fun x hx => h x (List.mem_cons_of_mem r hx))

theorem round3_zero : round3 0 = 0 := by
  norm_num [round3, roundHalfEven]

theorem level1NormScores_ne_nil (taxonomy : List (String × TaxCategory)) (text : String)
    (h : taxonomy ≠ []) : level1NormScores taxonomy text ≠ [] := by
  unfold level1NormScores level1RawScores
  split
  · simp [List.map_eq_nil_iff, h]
  · simp [List.map_eq_nil_iff, h]

theorem level1NormScores_keys (taxonomy : List (String × TaxCategory)) (text : String) :
    (level1NormScores taxonomy text).map Prod.fst = taxonomy.map Prod.fst := by
  unfold level1NormScores level1RawScores
  split
  · simp [List.map_map, Function.comp]
  · simp [List.map_map, Function.comp]

theorem classifyLevel1_category (taxonomy : List (String × TaxCategory)) (text : String)
    (b : String × ℚ) (hb : argmaxFirst (level1NormScores taxonomy text) = some b) :
    (classifyLevel1 taxonomy text).category = b.1 := by
  simp only [classifyLevel1]
  rw [hb]

theorem classifyLevel1_all_zero (k : String) (c : TaxCategory)
    (rest : List (String × TaxCategory)) (text : String)
    (hz : ∀ p ∈ level1RawScores ((k, c) :: rest) text, p.2 = 0) :
    (classifyLevel1 ((k, c) :: rest) text).category = k ∧
    (classifyLevel1 ((k, c) :: rest) text).confidence = 0 := by
  have hhead : (k, level1Score text c) ∈ level1RawScores ((k, c) :: rest) text := by
    unfold level1RawScores
    simp
  have hs0 : level1Score text c = 0 := hz _ hhead
  have hmax : level1MaxScore ((k, c) :: rest) text = 0 := by
    unfold level1MaxScore
    rw [pyMax_eq_zero_iff]
    · intro x hx
      obtain ⟨p, hp, rfl⟩ := List.mem_map.mp hx
      exact hz p hp
    · intro x hx
      obtain ⟨p, hp, rfl⟩ := List.mem_map.mp hx
      rw [hz p hp]
  have hnorm : level1NormScores ((k, c) :: rest) text = level1RawScores ((k, c) :: rest) text := by
    unfold level1NormScores
    rw [if_neg (by rw [hmax]; exact lt_irrefl 0)]
  have hraw : level1RawScores ((k, c) :: rest) text =
      (k, level1Score text c) :: rest.map (fun p => (p.1, level1Score text p.2)) := by
    unfold level1RawScores
    simp
  have hargmax : argmaxFirst (level1NormScores ((k, c) :: rest) text) =
      some (k, level1Score text c) := by
    rw [hnorm, hraw]
    show some _ = _
    congr 1
    apply argmax_foldl_keep
    intro r hr
    obtain ⟨p, hp, rfl⟩ := List.mem_map.mp hr
    have h0 : level1Score text p.2 = 0 :=
      hz (p.1, level1Score text p.2)
        (by rw [hraw]; exact List.mem_cons_of_mem _ (List.mem_map_of_mem _ hp))
    show level1Score text p.2 ≤ level1Score text c
    rw [h0, hs0]
  constructor
  · rw [classifyLevel1_category _ _ _ hargmax]
  · simp only [classifyLevel1]
    rw [hargmax]
    have hfind : assocFind (level1NormScores ((k, c) :: rest) text) k =
        some (level1Score text c) := by
      rw [hnorm, hraw]
      unfold assocFind
      rw [List.find?_cons_of_pos _ (by simp)]
      rfl
    rw [hfind]
    simp only [Option.getD_some, hs0]
    exact round3_zero

/-- C4 counterexample: on the empty article every level-1 raw score is zero,
yet the returned level-1 category is `"psychology"` (the first taxonomy key),
not `"other"`, refuting "the returned level-1 category is `other` if and only
if all level-1 scores are zero". -/
theorem c4_counterexample :
    (multiLevelClassify CATEGORY_TAXONOMY "" "").category = "psychology" ∧
    (level1RawScores CATEGORY_TAXONOMY (combinedText "" "")).all
      (fun p => decide (p.2 = 0)) = true ∧
    "psychology" ≠ "other" := by
  refine ⟨?_, ?_, by decide⟩
  · with_unfolding_all decide
  · with_unfolding_all decide

/-- C4 amended.  Level-1 classification: each top-level category is scored by
`level1Score` (the sum over every descendant leaf keyword of
`min(occurrences, 3)`), scores are normalized by the maximum when it is
positive, and the first maximal entry in taxonomy enumeration order wins.
The returned category is never `"other"` for the shipped (nonempty) taxonomy:
when all level-1 scores are zero the first taxonomy key, `"psychology"`, is
returned with confidence 0.0 (`"other"` would require an empty taxonomy). -/
theorem c4_level1_amended (title content : String) :
    (0 < level1MaxScore CATEGORY_TAXONOMY (combinedText title content) →
      level1NormScores CATEGORY_TAXONOMY (combinedText title content) =
        (level1RawScores CATEGORY_TAXONOMY (combinedText title content)).map
          (fun p => (p.1, p.2 / level1MaxScore CATEGORY_TAXONOMY (combinedText title content)))) ∧
    (∃ b, argmaxFirst (level1NormScores CATEGORY_TAXONOMY (combinedText title content)) =
        some b ∧
      (level1NormScores CATEGORY_TAXONOMY (combinedText title content)).find?
        (fun r => decide (r.2 = pyMax ((level1NormScores CATEGORY_TAXONOMY
          (combinedText title content)).map Prod.snd))) = some b ∧
      (classifyLevel1 CATEGORY_TAXONOMY (combinedText title content)).category = b.1) ∧
    (classifyLevel1 CATEGORY_TAXONOMY (combinedText title content)).category ≠ "other" ∧
    ((∀ p ∈ level1RawScores CATEGORY_TAXONOMY (combinedText title content), p.2 = 0) →
      (classifyLevel1 CATEGORY_TAXONOMY (combinedText title content)).category = "psychology" ∧
      (classifyLevel1 CATEGORY_TAXONOMY (combinedText title content)).confidence = 0) := by
  have hne : CATEGORY_TAXONOMY ≠ [] := by
    unfold CATEGORY_TAXONOMY
    exact List.cons_ne_nil _ _
  obtain ⟨b, hb1, hb2, _, hbmem⟩ :=
    argmaxFirst_spec _ (level1NormScores_ne_nil CATEGORY_TAXONOMY (combinedText title content) hne)
  have hcat := classifyLevel1_category CATEGORY_TAXONOMY (combinedText title content) b hb1
  refine ⟨?_, ⟨b, hb1, hb2, hcat⟩, ?_, ?_⟩
  · intro hpos
    unfold level1NormScores
    rw [if_pos hpos]
  · rw [hcat]
    have hkey : b.1 ∈ CATEGORY_TAXONOMY.map Prod.fst := by
      rw [← level1NormScores_keys CATEGORY_TAXONOMY (combinedText title content)]
      exact List.mem_map_of_mem _ hbmem
    have hkeys : CATEGORY_TAXONOMY.map Prod.fst = ["psychology", "management", "finance"] := by
      rfl
    rw [hkeys] at hkey
    simp only [List.mem_cons, List.not_mem_nil, or_false] at hkey
    rcases hkey with h | h | h
    · rw [h]; decide
    · rw [h]; decide
    · rw [h]; decide
  · intro hz
    have hshape : ∃ c rest, CATEGORY_TAXONOMY = ("psychology", c) :: rest := ⟨_, _, rfl⟩
    obtain ⟨c, rest, heq⟩ := hshape
    rw [heq] at hz ⊢
    exact classifyLevel1_all_zero "psychology" c rest (combinedText title content) hz

/-- Witness for C4 amended on the empty article: all level-1 raw scores are
zero and the classifier returns `psychology` with confidence 0. -/
theorem c4_level1_amended_witness :
    (classifyLevel1 CATEGORY_TAXONOMY (combinedText "" "")).category = "psychology" ∧
    (classifyLevel1 CATEGORY_TAXONOMY (combinedText "" "")).confidence = 0 := by
  exact (c4_level1_amended "" "").2.2.2 (by with_unfolding_all decide)

/-! ## Claim about the article quality assessment -/

/-- C6.  Quality assessment validity: for every configuration and input,
`process_article` returns
`is_valid = (min_length ≤ len(cleaned) ≤ max_length) AND NOT is_spam AND
quality_score ≥ 0.5`, and empty cleaned content yields quality score 0 and
`is_valid = False`.  The assessment is modelled as a total function, so it
never raises. -/
theorem c6_quality_validity (min_length max_length : ℕ)
    (cleanHtml cleanText : String → String)
    (exclusion : List (String × List String)) (title content : String) :
    ((processArticle min_length max_length cleanHtml cleanText exclusion title
        content).is_valid = true ↔
      (min_length ≤ (processArticle min_length max_length cleanHtml cleanText exclusion
          title content).content_length ∧
        (processArticle min_length max_length cleanHtml cleanText exclusion title
          content).content_length ≤ max_length ∧
        (processArticle min_length max_length cleanHtml cleanText exclusion title
          content).is_spam = false ∧
        (1/2 : ℚ) ≤ (processArticle min_length max_length cleanHtml cleanText exclusion
          title content).quality_score)) ∧
    ((processArticle min_length max_length cleanHtml cleanText exclusion title
        content).content = "" →
      (processArticle min_length max_length cleanHtml cleanText exclusion title
        content).quality_score = 0 ∧
      (processArticle min_length max_length cleanHtml cleanText exclusion title
        content).is_valid = false) := by
  constructor
  · simp only [processArticle, Bool.and_eq_true, Bool.not_eq_true', decide_eq_true_eq,
      and_assoc]
  · intro h
    simp only [processArticle] at h ⊢
    rw [h]
    have hq : calculateQualityScore min_length max_length "" (cleanText title) = 0 := by
      simp [calculateQualityScore]
    rw [hq]
    refine ⟨rfl, ?_⟩
    rw [decide_eq_false (by norm_num : ¬ ((1 : ℚ)/2 ≤ 0))]
    rw [Bool.and_false]

/-- Witness for C6: a cleaner mapping everything to the empty string produces
empty cleaned content, quality score 0 and an invalid article. -/
theorem c6_quality_validity_witness :
    (processArticle 200 50000 id (fun _ => "") EXCLUSION_KEYWORDS "" "").quality_score = 0 ∧
    (processArticle 200 50000 id (fun _ => "") EXCLUSION_KEYWORDS "" "").is_valid = false := by
  exact (c6_quality_validity 200 50000 id (fun _ => "") EXCLUSION_KEYWORDS "" "").2
    (by with_unfolding_all decide)

/-! ## Claims about LLM response parsing -/

/-- A concrete test double for `json.loads`: it agrees with Python's
`json.loads` on the two response strings used in the concrete parsing
instances below, and rejects everything else. -/
def jsonParseStub : String → Option Json := fun s =>
  if s = "\x7b\"category\": \"其他\", \"confidence\": \"high\"\x7d" then
    some (.obj [("category", .str "其他"), ("confidence", .str "high")])
  else if s = "\x7b\"category\": \"心理咨询\"\x7d" then
    some (.obj [("category", .str "心理咨询")])
  else none

/-- C7 counterexample: on a well-formed JSON response whose `confidence`
field is the non-numeric string `"high"` (a present-but-invalid confidence),
the `float()` cast raises `ValueError` and the parser falls through to the
non-JSON fallback path: the method tag is `ai_zhipu_fallback`, not the
`ai_zhipu` the claim predicts for an invalid confidence. -/
theorem c7_counterexample :
    parseResponse jsonParseStub "zhipu"
        "\x7b\"category\": \"其他\", \"confidence\": \"high\"\x7d" =
      .ok { category := "other", confidence := 1/2,
            reasoning := "Parsed from non-JSON response",
            method := "ai_zhipu_fallback" } ∧
    "ai_zhipu_fallback" ≠ "ai_zhipu" := by
  constructor
  · with_unfolding_all rfl
  · decide

/-- C7 amended.  LLM response parsing: the parser takes the substring from
the first `{` to the last `}` and attempts a JSON decode.  On decode failure
it falls back to substring search in fixed priority order with confidence 0.5
and the fallback method tag.  On a decoded dict with a string `category`
label, the label is mapped through the fixed lookup (unknown labels map to
`"other"`); a missing `confidence` defaults to 0.5 and a numeric one is used
as-is, with method tag `ai_<model>`; a present but non-decimal `confidence`
string raises `ValueError`, which is caught and routed to the same fallback
path as a JSON failure (not the default 0.5 with tag `ai_<model>`). -/
theorem c7_parse_amended (jsonParse : String → Option Json)
    (model response_text : String) (a b : ℕ) (kvs : List (String × Json))
    (hfa : pyFindChar response_text lbrace = some a)
    (hfb : pyRFindChar response_text rbrace = some b)
    (hab : a < b + 1) :
    (jsonParse (pySlice response_text a (b + 1)) = none →
      parseResponse jsonParse model response_text =
        .ok (fallbackParse model response_text)) ∧
    (jsonParse (pySlice response_text a (b + 1)) = some (.obj kvs) →
      ∀ s, assocFind kvs "category" = some (.str s) →
        (assocFind kvs "confidence" = none →
          parseResponse jsonParse model response_text =
            .ok { category := (assocFind AI_CATEGORY_MAPPING s).getD "other",
                  confidence := 1/2,
                  reasoning := (match assocFind kvs "reasoning" with
                    | some (.str rs) => rs
                    | _ => ""),
                  method := "ai_" ++ model }) ∧
        (∀ q : ℚ, assocFind kvs "confidence" = some (.num q) →
          parseResponse jsonParse model response_text =
            .ok { category := (assocFind AI_CATEGORY_MAPPING s).getD "other",
                  confidence := q,
                  reasoning := (match assocFind kvs "reasoning" with
                    | some (.str rs) => rs
                    | _ => ""),
                  method := "ai_" ++ model }) ∧
        (∀ cs, assocFind kvs "confidence" = some (.str cs) → parseDecimal cs = none →
          parseResponse jsonParse model response_text =
            .ok (fallbackParse model response_text))) := by
  constructor
  · intro hd
    simp only [parseResponse, hfa, hfb]
    rw [if_pos hab, hd]
  · intro hd s hs
    refine ⟨?_, ?_, ?_⟩
    · intro hc
      simp only [parseResponse, hfa, hfb]
      rw [if_pos hab, hd]
      simp only [hs, hc, Option.getD_none]
      rfl
    · intro q hc
      simp only [parseResponse, hfa, hfb]
      rw [if_pos hab, hd]
      simp only [hs, hc, Option.getD_some]
      rfl
    · intro cs hc hcs
      simp only [parseResponse, hfa, hfb]
      rw [if_pos hab, hd]
      simp only [hs, hc, Option.getD_some]
      simp only [pyFloat, hcs]

/-- Witness for C7 amended: a decoded dict with label `心理咨询` and no
confidence field yields category `psychology`, confidence 0.5 and method
`ai_zhipu`. -/
theorem c7_parse_amended_witness :
    parseResponse jsonParseStub "zhipu" "\x7b\"category\": \"心理咨询\"\x7d" =
      .ok { category := "psychology", confidence := 1/2, reasoning := "",
            method := "ai_zhipu" } := by
  have h := (c7_parse_amended jsonParseStub "zhipu"
      "\x7b\"category\": \"心理咨询\"\x7d" 0 19
      [("category", Json.str "心理咨询")]
      (by with_unfolding_all rfl) (by with_unfolding_all rfl) (by norm_num)).2
    (by with_unfolding_all rfl) "心理咨询" (by with_unfolding_all rfl)
  have h2 := h.1 (by with_unfolding_all rfl)
  rw [h2]
  with_unfolding_all rfl

/-! ## Claim about score monotonicity -/

/-- The per-category score as a function of an assignment of occurrence
counts to keywords (the classifier instantiates the counts from the text;
see `categoryScore_eq_ofCounts`). -/
def categoryScoreOfCounts (kws : List (String × ℚ)) (counts : String → ℕ) : ℚ :=
  (kws.map (fun p =>
    if 0 < counts p.1 then p.2 * ((min (counts p.1) 5 : ℕ) : ℚ) / 5 else 0)).sum

/-- `categoryScore` is `categoryScoreOfCounts` at the counts the text
induces. -/
theorem categoryScore_eq_ofCounts (text : String) (rule : CategoryRule) :
    categoryScore text rule =
      categoryScoreOfCounts rule.keywords
        (fun s => pyCount (pyLower text) (pyLower s)) := rfl

theorem categoryScoreOfCounts_nonneg (kws : List (String × ℚ)) (counts : String → ℕ)
    (hw : ∀ q ∈ kws, 0 ≤ q.2) : 0 ≤ categoryScoreOfCounts kws counts := by
  unfold categoryScoreOfCounts
  apply List.sum_nonneg
  intro x hx
  obtain ⟨q, hq, rfl⟩ := List.mem_map.mp hx
  split
  · exact div_nonneg (mul_nonneg (hw q hq) (Nat.cast_nonneg _)) (by norm_num)
  · exact le_refl 0

theorem categoryScoreOfCounts_mono (kws : List (String × ℚ)) (c₁ c₂ : String → ℕ)
    (hw : ∀ q ∈ kws, 0 ≤ q.2) (hc : ∀ s, c₁ s ≤ c₂ s) :
    categoryScoreOfCounts kws c₁ ≤ categoryScoreOfCounts kws c₂ := by
  unfold categoryScoreOfCounts
  apply List.sum_le_sum
  intro q hq
  dsimp only
  by_cases h1 : 0 < c₁ q.1
  · rw [if_pos h1, if_pos (lt_of_lt_of_le h1 (hc q.1))]
    rw [div_le_div_iff_of_pos_right (by norm_num : (0:ℚ) < 5)]
    apply mul_le_mul_of_nonneg_left _ (hw q hq)
    exact_mod_cast min_le_min (hc q.1) (le_refl 5)
  · rw [if_neg h1]
    split
    · exact div_nonneg (mul_nonneg (hw q hq) (Nat.cast_nonneg _)) (by norm_num)
    · exact le_refl 0

/-- Fold-based maximum with 0 as the bottom element; agrees with `pyMax` on
nonempty lists of nonnegative values. -/
def listMax0 (l : List ℚ) : ℚ := l.foldr max 0

theorem listMax0_nonneg (l : List ℚ) : 0 ≤ listMax0 l := by
  induction l with
  | nil => exact le_refl 0
  | cons x t ih => exact le_max_of_le_right ih

theorem listMax0_append (X Y : List ℚ) :
    listMax0 (X ++ Y) = max (listMax0 X) (listMax0 Y) := by
  induction X with
  | nil =>
    show listMax0 Y = max (0 : ℚ) (listMax0 Y)
    rw [max_eq_right (listMax0_nonneg Y)]
  | cons x t ih =>
    show max x (listMax0 (t ++ Y)) = max (max x (listMax0 t)) (listMax0 Y)
    rw [ih, max_assoc]

theorem foldl_max_eq_listMax0 (l : List ℚ) : ∀ a : ℚ, 0 ≤ a →
    l.foldl max a = max a (listMax0 l) := by
  induction l with
  | nil =>
    intro a ha
    show a = max a 0
    rw [max_eq_left ha]
  | cons y t ih =>
    intro a ha
    rw [List.foldl_cons, ih (max a y) (le_max_of_le_left ha)]
    show max (max a y) (listMax0 t) = max a (max y (listMax0 t))
    rw [max_assoc]

theorem pyMax_eq_listMax0 (l : List ℚ) (h : ∀ x ∈ l, 0 ≤ x) (hne : l ≠ []) :
    pyMax l = listMax0 l := by
  match l with
  | [] => exact absurd rfl hne
  | x :: xs =>
    show xs.foldl max x = listMax0 (x :: xs)
    rw [foldl_max_eq_listMax0 xs x (h x (List.mem_cons_self x xs))]
    rfl

theorem norm_div_max_mono (v₁ v₂ M : ℚ) (h0 : 0 ≤ v₁) (h12 : v₁ ≤ v₂) (hM : 0 ≤ M) :
    (if 0 < max v₁ M then v₁ / max v₁ M else v₁) ≤
      (if 0 < max v₂ M then v₂ / max v₂ M else v₂) := by
  by_cases h2 : 0 < max v₂ M
  · rw [if_pos h2]
    by_cases h1 : 0 < max v₁ M
    · rw [if_pos h1, div_le_div_iff₀ h1 h2]
      rcases le_total v₂ M with hm | hm
      · rw [max_eq_right hm, max_eq_right (le_trans h12 hm)]
        exact mul_le_mul_of_nonneg_right h12 hM
      · rw [max_eq_left hm, mul_comm v₂ (max v₁ M)]
        exact mul_le_mul_of_nonneg_right (le_max_left v₁ M) (h0.trans h12)
    · rw [if_neg h1]
      have hv1 : v₁ = 0 := le_antisymm (le_trans (le_max_left v₁ M) (not_lt.mp h1)) h0
      rw [hv1]
      exact div_nonneg (h0.trans h12) h2.le
  · rw [if_neg h2, if_neg (fun h => h2 (lt_of_lt_of_le h (max_le_max h12 (le_refl M))))]
    exact h12

/-- C9.  Score monotonicity: fix the classifier's rule list as
`pre ++ (cat, rule) :: post` with nonnegative weights (as in the shipped
`KEYWORD_RULES`), and two count assignments that agree on every keyword
except `k` — a keyword of `rule` — whose count increases while staying under
the diminishing-returns cap 5, with every other category's score unchanged.
Then `cat`'s raw score never decreases, and neither does its max-normalized
score (`score / max` when the maximum is positive, as in `normScores`). -/
theorem c9_score_monotonicity (pre post : List (String × CategoryRule)) (cat : String)
    (rule : CategoryRule) (k : String) (c₁ c₂ : String → ℕ)
    (hw : ∀ p ∈ pre ++ (cat, rule) :: post, ∀ q ∈ p.2.keywords, 0 ≤ q.2)
    (_hk : k ∈ rule.keywords.map Prod.fst)
    (hagree : ∀ s, s ≠ k → c₁ s = c₂ s)
    (hle : c₁ k ≤ c₂ k) (_hcap : c₂ k ≤ 5)
    (hothers : ∀ p ∈ pre ++ post,
      categoryScoreOfCounts p.2.keywords c₁ = categoryScoreOfCounts p.2.keywords c₂) :
    categoryScoreOfCounts rule.keywords c₁ ≤ categoryScoreOfCounts rule.keywords c₂ ∧
    (if 0 < pyMax ((pre ++ (cat, rule) :: post).map
          (fun p => categoryScoreOfCounts p.2.keywords c₁)) then
        categoryScoreOfCounts rule.keywords c₁ /
          pyMax ((pre ++ (cat, rule) :: post).map
            (fun p => categoryScoreOfCounts p.2.keywords c₁))
      else categoryScoreOfCounts rule.keywords c₁) ≤
    (if 0 < pyMax ((pre ++ (cat, rule) :: post).map
          (fun p => categoryScoreOfCounts p.2.keywords c₂)) then
        categoryScoreOfCounts rule.keywords c₂ /
          pyMax ((pre ++ (cat, rule) :: post).map
            (fun p => categoryScoreOfCounts p.2.keywords c₂))
      else categoryScoreOfCounts rule.keywords c₂) := by
  have hc : ∀ s, c₁ s ≤ c₂ s := by
    intro s
    by_cases hs : s = k
    · rw [hs]; exact hle
    · rw [hagree s hs]
  have hwrule : ∀ q ∈ rule.keywords, 0 ≤ q.2 :=
    hw (cat, rule) (List.mem_append_right pre (List.mem_cons_self _ _))
  have hraw : categoryScoreOfCounts rule.keywords c₁ ≤ categoryScoreOfCounts rule.keywords c₂ :=
    categoryScoreOfCounts_mono rule.keywords c₁ c₂ hwrule hc
  refine ⟨hraw, ?_⟩
  set v₁ := categoryScoreOfCounts rule.keywords c₁ with hv₁
  set v₂ := categoryScoreOfCounts rule.keywords c₂ with hv₂
  set M := max (listMax0 (pre.map (fun p => categoryScoreOfCounts p.2.keywords c₁)))
    (listMax0 (post.map (fun p => categoryScoreOfCounts p.2.keywords c₁))) with hM
  have hsplit : ∀ (c : String → ℕ),
      (∀ p ∈ pre ++ post, categoryScoreOfCounts p.2.keywords c =
        categoryScoreOfCounts p.2.keywords c₁) →
      (∀ q ∈ rule.keywords, True) →
      pyMax ((pre ++ (cat, rule) :: post).map (fun p => categoryScoreOfCounts p.2.keywords c)) =
        max (categoryScoreOfCounts rule.keywords c) M := by
    intro c hpre _
    have hnn : ∀ x ∈ (pre ++ (cat, rule) :: post).map
        (fun p => categoryScoreOfCounts p.2.keywords c), 0 ≤ x := by
      intro x hx
      obtain ⟨p, hp, rfl⟩ := List.mem_map.mp hx
      exact categoryScoreOfCounts_nonneg p.2.keywords c (hw p hp)
    have hne : (pre ++ (cat, rule) :: post).map
        (fun p => categoryScoreOfCounts p.2.keywords c) ≠ [] := by
      simp
    rw [pyMax_eq_listMax0 _ hnn hne, List.map_append, List.map_cons, listMax0_append]
    show max (listMax0 (pre.map (fun p => categoryScoreOfCounts p.2.keywords c)))
      (max (categoryScoreOfCounts rule.keywords c)
        (listMax0 (post.map (fun p => categoryScoreOfCounts p.2.keywords c)))) = _
    have hprem : pre.map (fun p => categoryScoreOfCounts p.2.keywords c) =
        pre.map (fun p => categoryScoreOfCounts p.2.keywords c₁) := by
      apply List.map_congr_left
      intro p hp
      exact hpre p (List.mem_append_left post hp)
    have hpostm : post.map (fun p => categoryScoreOfCounts p.2.keywords c) =
        post.map (fun p => categoryScoreOfCounts p.2.keywords c₁) := by
      apply List.map_congr_left
      intro p hp
      exact hpre p (List.mem_append_right pre hp)
    rw [hprem, hpostm, hM, max_left_comm]
  have hm₁ : pyMax ((pre ++ (cat, rule) :: post).map
      (fun p => categoryScoreOfCounts p.2.keywords c₁)) = max v₁ M :=
    hsplit c₁ (fun p _ => rfl) (fun _ _ => trivial)
  have hm₂ : pyMax ((pre ++ (cat, rule) :: post).map
      (fun p => categoryScoreOfCounts p.2.keywords c₂)) = max v₂ M :=
    hsplit c₂ (fun p hp => (hothers p hp).symm) (fun _ _ => trivial)
  rw [hm₁, hm₂]
  exact norm_div_max_mono v₁ v₂ M
    (categoryScoreOfCounts_nonneg rule.keywords c₁ hwrule) hraw
    (le_max_of_le_left (listMax0_nonneg _))

/-- Witness for C9: raising the count of keyword `alpha` from 1 to 3 (under
the cap) with the other category's counts unchanged does not lower the
category's raw score. -/
theorem c9_score_monotonicity_witness :
    categoryScoreOfCounts [("alpha", 1), ("beta", mkRat 1 2)]
        (fun s => if s = "alpha" then 1 else if s = "gamma" then 2 else 0) ≤
      categoryScoreOfCounts [("alpha", 1), ("beta", mkRat 1 2)]
        (fun s => if s = "alpha" then 3 else if s = "gamma" then 2 else 0) := by
  refine (c9_score_monotonicity [] [("B", ⟨"B", [("gamma", 1)]⟩)] "A"
    ⟨"A", [("alpha", 1), ("beta", mkRat 1 2)]⟩ "alpha"
    (fun s => if s = "alpha" then 1 else if s = "gamma" then 2 else 0)
    (fun s => if s = "alpha" then 3 else if s = "gamma" then 2 else 0)
    (by with_unfolding_all decide) (by decide) ?_ (by decide) (by decide)
    (by with_unfolding_all decide)).1
  intro s hs
  dsimp only
  rw [if_neg hs, if_neg hs]
